import Mathlib

/-! Verification development for the HRMS AI question-generation service.

The definitions below are a shallow embedding of
`src/ai-service/services/groq_question_generator.py` (class
`GroqQuestionGenerator`).  Python integers are modelled as `Int`, Python
lists as `List`, Python dicts with fixed keys as structures, Python sets
of template indices as duplicate-free `List Nat` (elements are only added
through `set_add`, which never introduces a duplicate, so `List.length`
agrees with Python's `len` on a set).  HTTP calls are modelled by passing
the provider's response (status code / parsed payload) as an explicit
argument; `time.sleep` and credential rotation are recorded in explicit
event traces. -/

namespace HRMS

/-- Per-difficulty integer counts, the value type of both a topic request
and of the `existing_counts` dictionary built by
`_check_existing_questions` (keys `'easy'`, `'medium'`, `'hard'`). -/
structure DiffCounts where
  easy : Int
  medium : Int
  hard : Int
deriving DecidableEq

/-- One element of the `topic_configs` argument: a topic identifier with
requested per-difficulty counts (`tc['topic']`, `tc.get('easy', 0)`, ...). -/
structure TopicConfig where
  topic : String
  easy : Int
  medium : Int
  hard : Int
deriving DecidableEq

/-- One element of the `missing_configs` list built by
`_calculate_missing_questions`: like `TopicConfig` but with the derived
`total` field. -/
structure MissingConfig where
  topic : String
  easy : Int
  medium : Int
  hard : Int
  total : Int
deriving DecidableEq

/-- `_calculate_missing_questions` (groq_question_generator.py lines
135-158).  The `existing_counts` dict is modelled as a partial map from
topic to `DiffCounts`; `existing_counts.get(topic, {'easy': 0, ...})`
becomes `Option.getD`. -/
def calculate_missing_questions (topic_configs : List TopicConfig)
    (existing_counts : String → Option DiffCounts) : List MissingConfig :=
  match topic_configs with
  | [] => []
  | tc :: rest =>
    let existing := (existing_counts tc.topic).getD ⟨0, 0, 0⟩
    let e := max 0 (tc.easy - existing.easy)
    let m := max 0 (tc.medium - existing.medium)
    let h := max 0 (tc.hard - existing.hard)
    let missing_config : MissingConfig := ⟨tc.topic, e, m, h, e + m + h⟩
    if 0 < missing_config.total then
      missing_config :: calculate_missing_questions rest existing_counts
    else
      calculate_missing_questions rest existing_counts

/-- Restatement of the spec's `MissingWorkSpec` formula for a single
topic: counts = `max(0, requested − existing)` per difficulty, total
recomputed.  This definition follows the SPEC's words; the theorem for C1
relates it to `calculate_missing_questions`, which follows the source. -/
def spec_missing_work (tc : TopicConfig)
    (existing_counts : String → Option DiffCounts) : MissingConfig :=
  let existing := (existing_counts tc.topic).getD ⟨0, 0, 0⟩
  let e := max 0 (tc.easy - existing.easy)
  let m := max 0 (tc.medium - existing.medium)
  let h := max 0 (tc.hard - existing.hard)
  ⟨tc.topic, e, m, h, e + m + h⟩

/-- The credential state of `GroqQuestionGenerator`: the `self.api_keys`
list and the `self.current_key_index` pointer. -/
structure GroqKeyState where
  api_keys : List String
  current_key_index : Nat
deriving DecidableEq

/-- `get_current_api_key` (lines 64-68): `None` when the key list is
empty, otherwise the entry at the current index (in-range by the class
invariant). -/
def get_current_api_key (s : GroqKeyState) : Option String :=
  if s.api_keys.isEmpty then none
  else s.api_keys.get? s.current_key_index

/-- `rotate_api_key` (lines 85-95): with zero or one key, returns `False`
and leaves the state untouched; otherwise advances the index circularly
and returns `True`.  The key list itself is never modified. -/
def rotate_api_key (s : GroqKeyState) : Bool × GroqKeyState :=
  if s.api_keys.length ≤ 1 then (false, s)
  else (true, { s with current_key_index := (s.current_key_index + 1) % s.api_keys.length })

/-- The state after one `rotate_api_key` call (discarding the returned flag). -/
def rotate_state (s : GroqKeyState) : GroqKeyState :=
  (rotate_api_key s).2

/-- An aptitude MCQ as emitted by the generator: the dict with keys
`topic`, `question`, `options` (label/text pairs), `correct_answer`,
`difficulty`, `explanation` (absent on error entries), `time_limit`, and
the `error` marker (absent, i.e. `false`, on ordinary questions). -/
structure AptQuestion where
  topic : String
  question : String
  options : List (String × String)
  correct_answer : String
  difficulty : String
  explanation : Option String := none
  time_limit : Int
  error : Bool := false
deriving DecidableEq

/-- The uniform aptitude result dict: `success`, `questions`,
`total_questions`, and the `metadata` keys `generated_by` and `type`. -/
structure AptResult where
  success : Bool
  questions : List AptQuestion
  total_questions : Int
  generated_by : String
  result_type : String := ""
deriving DecidableEq

/-- One entry of the static `fallback_templates` table in
`_get_fallback_aptitude_questions`. -/
structure AptTemplate where
  question : String
  options : List (String × String)
  correct_answer : String
  explanation : String
deriving DecidableEq

/-- `fallback_templates['logical_reasoning']['easy']` (lines 2727-2746). -/
def lr_easy_templates : List AptTemplate := [
  ⟨"If all developers use Git and John is a developer, what can we conclude?", [("A", "John uses Git"), ("B", "John uses SVN"), ("C", "John uses CVS"), ("D", "Cannot determine")], "A", "If all developers use Git and John is a developer, then John must use Git."⟩,
  ⟨"In a sequence: 2, 4, 8, 16, ?, what comes next?", [("A", "24"), ("B", "32"), ("C", "20"), ("D", "18")], "B", "Each number is doubled: 2×2=4, 4×2=8, 8×2=16, 16×2=32."⟩,
  ⟨"If it takes 5 developers 10 days to complete a project, how many days would it take 10 developers?", [("A", "20 days"), ("B", "5 days"), ("C", "15 days"), ("D", "2 days")], "B", "With double the developers, the work takes half the time: 10÷2=5 days."⟩,
  ⟨"Which number does not belong: 3, 5, 7, 9, 11?", [("A", "3"), ("B", "5"), ("C", "9"), ("D", "11")], "C", "9 is not a prime number (3×3=9), while others are prime numbers."⟩,
  ⟨"Complete the pattern: AB, CD, EF, ?", [("A", "GH"), ("B", "HI"), ("C", "FG"), ("D", "IJ")], "A", "Each pair consists of consecutive letters: AB, CD, EF, GH."⟩,
  ⟨"What comes next: 1, 1, 2, 3, 5, 8, ?", [("A", "11"), ("B", "13"), ("C", "15"), ("D", "10")], "B", "Fibonacci sequence: each number is sum of previous two (5+8=13)."⟩,
  ⟨"Which is the odd one out: HTTP, FTP, TCP, HTML?", [("A", "HTTP"), ("B", "FTP"), ("C", "TCP"), ("D", "HTML")], "D", "HTML is a markup language, while others are protocols."⟩,
  ⟨"Complete the series: 5, 10, 20, 40, ?", [("A", "60"), ("B", "80"), ("C", "70"), ("D", "90")], "B", "Each number is doubled: 5×2=10, 10×2=20, 20×2=40, 40×2=80."⟩,
  ⟨"If A > B and B > C, what is the relationship between A and C?", [("A", "A > C"), ("B", "A < C"), ("C", "A = C"), ("D", "Cannot determine")], "A", "Transitive property: if A > B and B > C, then A > C."⟩,
  ⟨"What is the next number: 1, 4, 9, 16, ?", [("A", "20"), ("B", "25"), ("C", "24"), ("D", "30")], "B", "Perfect squares: 1², 2², 3², 4², 5² = 25."⟩,
  ⟨"In binary, what is 1010 + 1100?", [("A", "10110"), ("B", "11010"), ("C", "10010"), ("D", "11100")], "A", "1010 (10) + 1100 (12) = 10110 (22 in binary)."⟩,
  ⟨"If every bug has a cause and this error is a bug, then:", [("A", "This error has a cause"), ("B", "This error has no cause"), ("C", "Some bugs have no cause"), ("D", "Cannot determine")], "A", "Universal statement: every bug has a cause, this is a bug, so this has a cause."⟩,
  ⟨"If no developers work on weekends and today is Saturday, then:", [("A", "No developers are working today"), ("B", "Some developers are working"), ("C", "All developers are working"), ("D", "Cannot determine")], "A", "No developers work weekends, Saturday is weekend, so no developers working."⟩,
  ⟨"Complete: Circle is to Round as Square is to ?", [("A", "Angular"), ("B", "Four-sided"), ("C", "Geometric"), ("D", "Flat")], "B", "Circle is characterized by being round, square by being four-sided."⟩,
  ⟨"In the pattern X, Y, Z, A, B, what comes next?", [("A", "C"), ("B", "D"), ("C", "E"), ("D", "F")], "A", "Alphabetical sequence continuing: X, Y, Z, A, B, C."⟩,
  ⟨"If all APIs return JSON and this endpoint is an API, then:", [("A", "This endpoint returns JSON"), ("B", "This endpoint returns XML"), ("C", "Some APIs return XML"), ("D", "Cannot determine")], "A", "Universal statement about APIs, this is an API, so it returns JSON."⟩,
  ⟨"What number is missing: 2, 3, 5, 7, 11, ?", [("A", "13"), ("B", "15"), ("C", "17"), ("D", "19")], "A", "Prime number sequence: 2, 3, 5, 7, 11, 13."⟩,
  ⟨"If debugging takes twice as long as coding, and coding takes 4 hours, how long is debugging?", [("A", "6 hours"), ("B", "8 hours"), ("C", "10 hours"), ("D", "12 hours")], "B", "Debugging = 2 × coding time = 2 × 4 = 8 hours."⟩,
  ⟨"Complete the analogy: Function is to Code as Chapter is to ?", [("A", "Book"), ("B", "Page"), ("C", "Word"), ("D", "Story")], "A", "Function is part of code, chapter is part of book."⟩,
  ⟨"If some programmers are testers and all testers are analysts, then:", [("A", "Some programmers are analysts"), ("B", "All programmers are analysts"), ("C", "No programmers are analysts"), ("D", "All analysts are programmers")], "A", "Some programmers → testers → analysts, so some programmers are analysts."⟩]

/-- `fallback_templates['logical_reasoning']['medium']` (lines 2749-2753). -/
def lr_medium_templates : List AptTemplate := [
  ⟨"In a coding interview, if 40% pass the technical round and 60% of those pass the final round, what percentage pass both?", [("A", "24%"), ("B", "30%"), ("C", "36%"), ("D", "20%")], "A", "40% × 60% = 0.4 × 0.6 = 0.24 = 24%"⟩,
  ⟨"If ALGORITHM is coded as DOJRULWKP, how is FUNCTION coded?", [("A", "IXQFWLRQ"), ("B", "IXQFWLRO"), ("C", "IXQFWLRP"), ("D", "IXQFWMRQ")], "A", "Each letter is shifted by +3 positions in alphabet."⟩,
  ⟨"A software team has 8 members. In how many ways can they form a subteam of 3 members?", [("A", "56"), ("B", "48"), ("C", "64"), ("D", "72")], "A", "Combination C(8,3) = 8!/(3!×5!) = 56 ways."⟩,
  ⟨"Complete the series: 2, 6, 12, 20, 30, ?", [("A", "42"), ("B", "40"), ("C", "38"), ("D", "44")], "A", "Pattern: n(n+1) where n=1,2,3,4,5,6. So 6×7=42."⟩,
  ⟨"If a hash table has load factor 0.75 and 12 elements, what is the table size?", [("A", "16"), ("B", "18"), ("C", "20"), ("D", "15")], "A", "Load factor = elements/size, so 0.75 = 12/size, size = 16."⟩]

/-- `fallback_templates['logical_reasoning']['hard']` (lines 2756-2757). -/
def lr_hard_templates : List AptTemplate := [
  ⟨"In a distributed system with 5 nodes, if each node can fail independently with probability 0.1, what is the probability that exactly 2 nodes fail?", [("A", "0.0729"), ("B", "0.0810"), ("C", "0.0656"), ("D", "0.0590")], "A", "Binomial probability: C(5,2) × (0.1)² × (0.9)³ = 10 × 0.01 × 0.729 = 0.0729"⟩,
  ⟨"A recursive algorithm has time complexity T(n) = 2T(n/2) + n. What is its Big O complexity?", [("A", "O(n log n)"), ("B", "O(n²)"), ("C", "O(n)"), ("D", "O(log n)")], "A", "Using Master Theorem: a=2, b=2, f(n)=n. Since n = n^log₂(2), complexity is O(n log n)."⟩]

/-- `fallback_templates['quantitative_aptitude']['easy']` (lines 2762-2766). -/
def qa_easy_templates : List AptTemplate := [
  ⟨"What is 25% of 80?", [("A", "20"), ("B", "25"), ("C", "15"), ("D", "30")], "A", "25% of 80 = 0.25 × 80 = 20"⟩,
  ⟨"If a software license costs $100 and there is a 15% discount, what is the final price?", [("A", "$85"), ("B", "$90"), ("C", "$95"), ("D", "$80")], "A", "15% discount means pay 85%. $100 × 0.85 = $85"⟩,
  ⟨"A team completes 3 features per sprint. How many features in 4 sprints?", [("A", "12"), ("B", "10"), ("C", "15"), ("D", "9")], "A", "3 features/sprint × 4 sprints = 12 features"⟩,
  ⟨"If 60% of tests pass, and there are 50 tests, how many fail?", [("A", "20"), ("B", "25"), ("C", "15"), ("D", "30")], "A", "40% fail: 50 × 0.40 = 20 tests fail"⟩,
  ⟨"What is 3/4 expressed as a percentage?", [("A", "75%"), ("B", "70%"), ("C", "80%"), ("D", "65%")], "A", "3/4 = 0.75 = 75%"⟩]

/-- `fallback_templates['quantitative_aptitude']['medium']` (lines 2769-2770). -/
def qa_medium_templates : List AptTemplate := [
  ⟨"A server processes 1200 requests per minute. How many requests in 2.5 hours?", [("A", "180000"), ("B", "150000"), ("C", "200000"), ("D", "160000")], "A", "2.5 hours = 150 minutes. 1200 × 150 = 180,000 requests"⟩,
  ⟨"If API response time increases by 20% from 100ms, what is the new response time?", [("A", "120ms"), ("B", "125ms"), ("C", "115ms"), ("D", "130ms")], "A", "20% increase: 100 + (100 × 0.20) = 120ms"⟩]

/-- `fallback_templates['quantitative_aptitude']['hard']` (line 2773). -/
def qa_hard_templates : List AptTemplate := [
  ⟨"A system has 99.9% uptime. In a year (365 days), how many minutes of downtime is this?", [("A", "525.6"), ("B", "432.5"), ("C", "365.2"), ("D", "876.0")], "A", "Downtime = 0.1% of year = 0.001 × 365 × 24 × 60 = 525.6 minutes"⟩]

/-- `fallback_templates['verbal_reasoning']['easy']` (lines 2778-2779). -/
def vr_easy_templates : List AptTemplate := [
  ⟨"Choose the word most similar to \"Debug\":", [("A", "Fix"), ("B", "Break"), ("C", "Code"), ("D", "Test")], "A", "Debug means to find and fix errors, so \"Fix\" is most similar."⟩,
  ⟨"What is the opposite of \"Compile\"?", [("A", "Decompile"), ("B", "Execute"), ("C", "Debug"), ("D", "Test")], "A", "Compile converts source to machine code, decompile does the reverse."⟩]

/-- `fallback_templates['verbal_reasoning']['medium']` (line 2782). -/
def vr_medium_templates : List AptTemplate := [
  ⟨"Complete the analogy: Code is to Program as Ingredient is to ?", [("A", "Recipe"), ("B", "Kitchen"), ("C", "Cook"), ("D", "Food")], "A", "Code makes up a program, just as ingredients make up a recipe."⟩]

/-- `fallback_templates['verbal_reasoning']['hard']` (line 2785). -/
def vr_hard_templates : List AptTemplate := [
  ⟨"If \"Optimization improves performance\" is true, and \"Performance affects user experience\" is true, what can we conclude?", [("A", "Optimization affects user experience"), ("B", "User experience improves optimization"), ("C", "Performance equals optimization"), ("D", "Cannot determine relationship")], "A", "Transitive property: Optimization → Performance → User Experience"⟩]

/-- The generic pool synthesised for a topic absent from
`fallback_templates` (lines 2799-2804): two questions built from the
topic display name, repeated ten times (`[...] * 10`), stored under the
single key `'easy'`. -/
def generic_base_templates (topic : String) : List AptTemplate :=
  let t := topic.replace "_" " "
  (List.replicate 10 [
    (⟨"What is a fundamental concept in " ++ t ++ "?", [("A", "Basic principle"), ("B", "Advanced technique"), ("C", "Complex algorithm"), ("D", "Expert method")], "A", "This tests basic understanding of " ++ t ++ "."⟩ : AptTemplate),
    ⟨"Which is most important in " ++ t ++ "?", [("A", "Foundation knowledge"), ("B", "Advanced skills"), ("C", "Expert techniques"), ("D", "Complex theories")], "A", "Foundation knowledge is most important in " ++ t ++ "."⟩]).flatten

/-- The pool selected by
`topic_templates.get(difficulty, topic_templates.get('easy', []))` for a
given topic and difficulty (lines 2797-2813).  For an unknown topic the
generic table has only the `'easy'` key, so every difficulty falls back
to the generic pool. -/
def fallback_pool (topic difficulty : String) : List AptTemplate :=
  if topic = "logical_reasoning" then
    if difficulty = "medium" then lr_medium_templates
    else if difficulty = "hard" then lr_hard_templates
    else lr_easy_templates
  else if topic = "quantitative_aptitude" then
    if difficulty = "medium" then qa_medium_templates
    else if difficulty = "hard" then qa_hard_templates
    else qa_easy_templates
  else if topic = "verbal_reasoning" then
    if difficulty = "medium" then vr_medium_templates
    else if difficulty = "hard" then vr_hard_templates
    else vr_easy_templates
  else generic_base_templates topic

/-- The `while len(available_templates) < count:
available_templates.extend(...)` loop (lines 2816-2817).  The extension
list is the same object as `available_templates`, so each iteration
doubles the pool.  The fuel argument bounds the iteration count; `count`
iterations always suffice because a non-empty pool at least doubles each
time (an empty pool would loop forever in Python, which never happens:
every pool in the table is non-empty). -/
def extend_pool_fuel : Nat → List AptTemplate → Nat → List AptTemplate
  | 0, pool, _ => pool
  | fuel + 1, pool, count =>
    if pool.length < count ∧ 0 < pool.length then
      extend_pool_fuel fuel (pool ++ pool) count
    else pool

/-- Pool extension as performed before selecting `count` templates. -/
def extend_pool (pool : List AptTemplate) (count : Nat) : List AptTemplate :=
  extend_pool_fuel count pool count

/-- The per-topic/per-difficulty selection loop of
`_get_fallback_aptitude_questions` (lines 2810-2839): when `count > 0`,
extend the pool and emit `count` questions by cyclic indexing, adding a
`[Variation n]` prefix when the index passes the (extended) pool length
(unreachable after extension, mirrored faithfully). -/
def pick_fallback_questions (topic difficulty : String) (count : Int)
    (time_per_question : Int) : List AptQuestion :=
  if 0 < count then
    let pool := fallback_pool topic difficulty
    let ext := extend_pool pool count.toNat
    (List.range count.toNat).map (fun i =>
      let template := ext.getD (i % ext.length) ⟨"", [], "", ""⟩
      let question_text :=
        if ext.length ≤ i then
          "[Variation " ++ toString (i / ext.length + 1) ++ "] " ++ template.question
        else template.question
      { topic := topic, question := question_text, options := template.options,
        correct_answer := template.correct_answer, difficulty := difficulty,
        explanation := some template.explanation, time_limit := time_per_question })
  else []

/-- `_get_fallback_aptitude_questions` (lines 2719-2848): compose
template questions for every topic configuration and difficulty and
return a successful result tagged `fallback_templates`. -/
def get_fallback_aptitude_questions (topic_configs : List TopicConfig)
    (time_per_question : Int) : AptResult :=
  let all_questions := (topic_configs.map (fun tc =>
    pick_fallback_questions tc.topic "easy" tc.easy time_per_question ++
    pick_fallback_questions tc.topic "medium" tc.medium time_per_question ++
    pick_fallback_questions tc.topic "hard" tc.hard time_per_question)).flatten
  { success := true, questions := all_questions,
    total_questions := all_questions.length,
    generated_by := "fallback_templates", result_type := "aptitude_fallback" }

/-- The total count requested by a list of topic configurations. -/
def requested_total (topic_configs : List TopicConfig) : Int :=
  (topic_configs.map (fun tc => tc.easy + tc.medium + tc.hard)).sum

/-- Python list slicing `l[:n]` for an `int` bound `n`: non-negative
bounds truncate from the front, negative bounds count from the end. -/
def py_slice_to {α : Type} (l : List α) (n : Int) : List α :=
  if 0 ≤ n then l.take n.toNat else l.take ((l.length : Int) + n).toNat

/-- The `success: false` result returned when the provider's 200 payload
is empty (lines 2222-2237). -/
def empty_response_error_result : AptResult :=
  { success := false,
    questions := [
      { topic := "error", question := "ERROR: AI returned empty response",
        options := [("A", "ERROR"), ("B", "Empty"), ("C", "AI response"), ("D", "received")],
        correct_answer := "A", difficulty := "error", time_limit := 60, error := true }],
    total_questions := 1, generated_by := "error", result_type := "empty_response_error" }

/-- The `success: false` result returned when the 200 payload fails to
parse with a truncation signature (lines 2273-2288). -/
def truncated_response_error_result : AptResult :=
  { success := false,
    questions := [
      { topic := "error",
        question := "ERROR: AI response was truncated. Try generating fewer questions.",
        options := [("A", "ERROR"), ("B", "Response"), ("C", "truncated"), ("D", "reduce count")],
        correct_answer := "A", difficulty := "error", time_limit := 60, error := true }],
    total_questions := 1, generated_by := "error", result_type := "truncated_response_error" }

/-- The `success: false` result returned on a plain JSON parse failure
(lines 2289-2304); `msg` is `str(e)` from the decoder. -/
def json_parse_error_result (msg : String) : AptResult :=
  { success := false,
    questions := [
      { topic := "error",
        question := "ERROR: AI response parsing failed. " ++ msg,
        options := [("A", "ERROR"), ("B", "JSON parsing"), ("C", "failed"), ("D", "invalid format")],
        correct_answer := "A", difficulty := "error", time_limit := 60, error := true }],
    total_questions := 1, generated_by := "error", result_type := "json_parse_error" }

/-- The `success: false` result of the outer exception handler of
`generate_aptitude_questions_by_topic` (lines 2310-2325). -/
def exception_error_result (msg : String) : AptResult :=
  { success := false,
    questions := [
      { topic := "error",
        question := "ERROR: Exception during generation - " ++ msg,
        options := [("A", "ERROR"), ("B", "Exception"), ("C", "occurred"), ("D", "Try again")],
        correct_answer := "A", difficulty := "error", time_limit := 60, error := true }],
    total_questions := 1, generated_by := "error", result_type := "exception_error" }

/-- The `success: false` result returned when every sub-batch failed
(lines 2360-2375). -/
def all_batches_failed_result : AptResult :=
  { success := false,
    questions := [
      { topic := "error",
        question := "ERROR: All batches failed to generate questions",
        options := [("A", "ERROR"), ("B", "All batches"), ("C", "failed"), ("D", "Try again")],
        correct_answer := "A", difficulty := "error", time_limit := 60, error := true }],
    total_questions := 1, generated_by := "error", result_type := "all_batches_failed" }

/-- Outcome of handling a 200 response body in
`generate_aptitude_questions_by_topic`: the content may be empty, may
fail `json.loads` (with the two truncation indicators `"Unterminated
string" in str(e)` and `content.endswith('}')`), or may parse to a
question list (`questions_data.get('questions', [])`). -/
inductive AptParseOutcome where
  | empty_content : AptParseOutcome
  | parse_error (msg : String) (unterminated_string ends_with_brace : Bool) : AptParseOutcome
  | parsed (questions : List AptQuestion) : AptParseOutcome
deriving DecidableEq

/-- The 200-branch of `generate_aptitude_questions_by_topic` (lines
2214-2304): empty content and parse failures yield distinct
`success: false` error results (no template fallback); a parsed list is
trimmed to the requested count when over-long and accepted as-is (never
padded) when short. -/
def aptitude_handle_200 (total_questions : Int) (outcome : AptParseOutcome) : AptResult :=
  match outcome with
  | .empty_content => empty_response_error_result
  | .parse_error msg unterminated ends_with_brace =>
    if unterminated || !ends_with_brace then truncated_response_error_result
    else json_parse_error_result msg
  | .parsed generated_questions =>
    let trimmed :=
      if total_questions < (generated_questions.length : Int) then
        py_slice_to generated_questions total_questions
      else generated_questions
    { success := true, questions := trimmed, total_questions := trimmed.length,
      generated_by := "groq_ai_single", result_type := "aptitude_by_topic" }

/-- Events recorded by the credential retry loop of
`generate_aptitude_questions_by_topic` (lines 2160-2212). -/
inductive GroqEvent where
  | attempt (key_index retry : Nat) : GroqEvent
  | sleep_for (seconds : Nat) : GroqEvent
  | rotate (ok : Bool) : GroqEvent
deriving DecidableEq

/-- Is the event a `time.sleep` call? -/
def is_sleep_event : GroqEvent → Bool
  | .sleep_for _ => true
  | _ => false

/-- Is the event an HTTP request attempt? -/
def is_attempt_event : GroqEvent → Bool
  | .attempt _ _ => true
  | _ => false

/-- The inner `for retry in range(max_retries_per_key)` loop (lines
2168-2202) with `max_retries_per_key = 2`, unrolled.  `status k r` is the
HTTP status the provider returns for retry `r` on key index `k`.  On a
429 at retry 0 the code sleeps `5 * (retry + 1) = 5` seconds and retries;
a 429 at retry 1 (the last allowed attempt) rotates the key and gives up
on this credential.  Returns the events, the last response status, and
the resulting credential state. -/
def retry_on_key (status : Nat → Nat → Nat) (s : GroqKeyState) :
    List GroqEvent × Nat × GroqKeyState :=
  let idx := s.current_key_index
  let s0 := status idx 0
  if s0 = 429 then
    let s1 := status idx 1
    if s1 = 429 then
      let r := rotate_api_key s
      ([.attempt idx 0, .sleep_for 5, .attempt idx 1, .rotate r.1], 429, r.2)
    else ([.attempt idx 0, .sleep_for 5, .attempt idx 1], s1, s)
  else ([.attempt idx 0], s0, s)

/-- The outer `for key_attempt in range(max_key_attempts)` loop (lines
2164-2206): run the per-key retry loop, stop on the first non-429
response, otherwise move to the next credential; the loop runs at most
`len(self.api_keys)` times and the last response's status is kept.  The
zero-attempts case reports 429 so that the caller lands in the same
template fallback the real code reaches through its separate
no-credentials guard (lines 2060-2063). -/
def run_key_attempts (status : Nat → Nat → Nat) :
    Nat → GroqKeyState → List GroqEvent × Nat × GroqKeyState
  | 0, s => ([], 429, s)
  | n + 1, s =>
    let r := retry_on_key status s
    if r.2.1 ≠ 429 then r
    else
      let rest := run_key_attempts status n r.2.2
      (r.1 ++ rest.1, rest.2.1, rest.2.2)

/-- Dispatch on the final response status of
`generate_aptitude_questions_by_topic` (lines 2208-2308): a final 429
(all credentials rate-limited) and any non-200 status fall back to the
template composer; a 200 status is handled by `aptitude_handle_200`. -/
def aptitude_response_dispatch (status_code : Nat) (outcome : AptParseOutcome)
    (topic_configs : List TopicConfig) (total_questions time_per_question : Int) : AptResult :=
  if status_code = 429 then
    get_fallback_aptitude_questions topic_configs time_per_question
  else if status_code = 200 then aptitude_handle_200 total_questions outcome
  else get_fallback_aptitude_questions topic_configs time_per_question

/-- The request phase of `generate_aptitude_questions_by_topic` for an
already-computed missing-work list: the retry/rotation loop followed by
response dispatch. -/
def generate_aptitude_by_topic_attempt (status : Nat → Nat → Nat)
    (outcome : AptParseOutcome) (s : GroqKeyState)
    (missing_configs : List TopicConfig) (total_questions time_per_question : Int) :
    List GroqEvent × AptResult :=
  let r := run_key_attempts status s.api_keys.length s
  (r.1, aptitude_response_dispatch r.2.1 outcome missing_configs total_questions time_per_question)

/-- A provider that answers HTTP 429 to every request. -/
def all_429 : Nat → Nat → Nat := fun _ _ => 429

/-- A communication question as emitted by the reading/listening/grammar
paths: the dict with `title`, `content`, a `passage` or `audio_text`
payload, MCQ `options`/`correct_answer` for grammar, `skill`, `type`
(field `qtype` here), optional `subtype`/`topic`, `difficulty`,
`time_limit`, `evaluation_criteria`, `instructions`, and the `error`
marker. -/
structure CommQuestion where
  title : String
  content : String
  passage : Option String := none
  audio_text : Option String := none
  options : List (String × String) := []
  correct_answer : Option String := none
  skill : String
  qtype : String
  subtype : Option String := none
  topic : Option String := none
  difficulty : String
  time_limit : Int
  evaluation_criteria : List String := []
  instructions : String := ""
  error : Bool := false
deriving DecidableEq

/-- The uniform communication result dict. -/
structure CommResult where
  success : Bool
  questions : List CommQuestion
  total_questions : Int
  generated_by : String
  result_type : String := ""
deriving DecidableEq

/-- Reading time limit by difficulty:
`120 if difficulty == 'easy' else 180 if difficulty == 'medium' else 240`. -/
def reading_time_limit (difficulty : String) : Int :=
  if difficulty = "easy" then 120 else if difficulty = "medium" then 180 else 240

/-- Conversion of one parsed `{"difficulty": ..., "passage": ...}` pair
into a question dict, from `_batch_generate_reading_questions` (lines
487-503). -/
def reading_passage_question (difficulty passage : String) : CommQuestion :=
  { title := "Reading Assessment - " ++ difficulty.capitalize ++ " Level",
    content := "Please read the following passage aloud clearly and naturally.",
    passage := some passage, skill := "reading", qtype := "reading_aloud",
    difficulty := difficulty, time_limit := reading_time_limit difficulty,
    evaluation_criteria := ["pronunciation", "fluency", "pace", "clarity"],
    instructions := "Read the paragraph aloud at a natural pace. Focus on clear pronunciation and proper intonation." }

/-- The `reading_templates['easy']` pool of
`_generate_reading_from_templates` (lines 526-530). -/
def reading_tfb_easy (job_title : String) : List String := [
  "Software development is a collaborative process that requires clear communication between team members. In " ++ job_title ++ " roles, professionals must effectively convey technical concepts to both technical and non-technical stakeholders.",
  "Modern " ++ job_title ++ " work involves continuous learning and adaptation to new technologies. Professionals in this field must stay updated with industry trends and programming languages.",
  "Quality assurance and testing are integral parts of the " ++ job_title ++ " workflow. Developers must communicate effectively with QA teams and document bug reports clearly."]

/-- The `reading_templates['medium']` pool (lines 531-534). -/
def reading_tfb_medium (job_title : String) : List String := [
  "Project management in " ++ job_title ++ " roles requires excellent communication skills to coordinate with cross-functional teams. Developers must participate in daily standups, sprint planning meetings, and retrospectives. They need to clearly communicate progress, blockers, and technical challenges to ensure project success.",
  "Code review processes in " ++ job_title ++ " positions demand constructive communication and feedback skills. Developers must provide clear, actionable comments on code quality, suggest improvements, and explain best practices to colleagues. This collaborative approach helps maintain code standards."]

/-- The `reading_templates['hard']` pool (lines 535-537). -/
def reading_tfb_hard (job_title : String) : List String := [
  "Performance optimization requires " ++ job_title ++ " professionals to analyze system bottlenecks and communicate findings effectively. They must present technical solutions to both technical and business stakeholders, explaining the impact of optimizations on user experience and system reliability while considering trade-offs between performance, maintainability, and development time."]

/-- One templated reading question of
`_generate_reading_from_templates` (lines 543-585): index `i` within a
difficulty selects a pool entry cyclically. -/
def reading_template_fallback_question (difficulty : String) (time_limit : Int)
    (pool : List String) (i : Nat) : CommQuestion :=
  { title := "Reading Assessment - " ++ difficulty.capitalize ++ " Level " ++ toString (i + 1),
    content := "Please read the following passage aloud clearly and naturally.",
    passage := some (pool.getD (i % pool.length) ""), skill := "reading",
    qtype := "reading_aloud", difficulty := difficulty, time_limit := time_limit,
    evaluation_criteria := ["pronunciation", "fluency", "pace", "clarity"],
    instructions := "Read the paragraph aloud at a natural pace." }

/-- `_generate_reading_from_templates` (lines 517-588): the template
fallback invoked by the batch reading path on any non-200 status or
exception. -/
def generate_reading_from_templates (reading_config : DiffCounts) (job_title : String) :
    List CommQuestion :=
  (List.range reading_config.easy.toNat).map
    (reading_template_fallback_question "easy" 120 (reading_tfb_easy job_title)) ++
  (List.range reading_config.medium.toNat).map
    (reading_template_fallback_question "medium" 180 (reading_tfb_medium job_title)) ++
  (List.range reading_config.hard.toNat).map
    (reading_template_fallback_question "hard" 240 (reading_tfb_hard job_title))

/-- Result of the single HTTP call of
`_batch_generate_reading_questions`: a 200 response whose payload parsed
to difficulty/passage pairs, a non-200 status, or an exception (which
includes a JSON parse failure of the 200 payload, since `json.loads` is
inside the same `try`). -/
inductive ReadingApiOutcome where
  | ok (passages : List (String × String)) : ReadingApiOutcome
  | http_error (status_code : Nat) : ReadingApiOutcome
  | failure : ReadingApiOutcome
deriving DecidableEq

/-- `_batch_generate_reading_questions` (lines 423-515): without
credentials or with nothing requested it returns `[]`; a parsed 200
payload is converted item-for-item with NO cardinality adjustment; any
other outcome falls back to `_generate_reading_from_templates`. -/
def batch_generate_reading_questions (has_api_keys : Bool)
    (reading_config : DiffCounts) (job_title : String)
    (outcome : ReadingApiOutcome) : List CommQuestion :=
  if !has_api_keys then []
  else if reading_config.easy + reading_config.medium + reading_config.hard = 0 then []
  else
    match outcome with
    | .ok passages_data => passages_data.map (fun pd => reading_passage_question pd.1 pd.2)
    | .http_error _ => generate_reading_from_templates reading_config job_title
    | .failure => generate_reading_from_templates reading_config job_title

/-- The 200-with-parse branch of `_generate_single_batch` (lines
2441-2467): trim an over-long list to the batch total, keep a short list
unchanged, report success. -/
def generate_single_batch_200 (batch_total : Int)
    (generated_questions : List AptQuestion) : Bool × List AptQuestion :=
  (true,
    if batch_total < (generated_questions.length : Int) then
      py_slice_to generated_questions batch_total
    else generated_questions)

/-- The 200 branch of `generate_aptitude_questions_by_difficulty` (lines
2555-2565): the parsed payload is spread into the result
(`{'success': True, **questions_data}`) with no cardinality adjustment;
`payload_total` and `payload_generated_by` are whatever the provider put
in `total_questions` and `metadata.generated_by`. -/
def generate_by_difficulty_200 (payload_questions : List AptQuestion)
    (payload_total : Int) (payload_generated_by : String) : AptResult :=
  { success := true, questions := payload_questions,
    total_questions := payload_total, generated_by := payload_generated_by }

/-- Events recorded by the sub-batch planner `_generate_aptitude_in_batches`. -/
inductive BatchPlanEvent where
  | batch_call (topics : List String) : BatchPlanEvent
  | sleep_for (seconds : Nat) : BatchPlanEvent
deriving DecidableEq

/-- `topic_configs[i:i + batch_size]` chunking with `batch_size = 2`
(line 2330-2333): consecutive pairs, with a final singleton when the
list has odd length. -/
def chunk2 {α : Type} : List α → List (List α)
  | [] => []
  | [a] => [[a]]
  | a :: b :: rest => [a, b] :: chunk2 rest

/-- The body of the sub-batch loop (lines 2332-2350): call
`_generate_single_batch` (modelled by the `run_batch` argument) on each
chunk, keep the questions of successful chunks, drop failed chunks, and
sleep 3 seconds between consecutive chunks
(`if i + batch_size < len(topic_configs)`). -/
def run_batches (run_batch : List MissingConfig → Bool × List AptQuestion) :
    List (List MissingConfig) → List BatchPlanEvent × List AptQuestion
  | [] => ([], [])
  | chunk :: rest =>
    let r := run_batch chunk
    let contributed := if r.1 then r.2 else []
    let sleeps : List BatchPlanEvent := if rest.isEmpty then [] else [.sleep_for 3]
    let tail := run_batches run_batch rest
    (.batch_call (chunk.map (fun mc => mc.topic)) :: (sleeps ++ tail.1),
      contributed ++ tail.2)

/-- `_generate_aptitude_in_batches` (lines 2327-2375): run all
sub-batches, concatenate the successful ones, and report success iff any
questions were produced. -/
def generate_aptitude_in_batches (topic_configs : List MissingConfig)
    (run_batch : List MissingConfig → Bool × List AptQuestion) :
    List BatchPlanEvent × AptResult :=
  let r := run_batches run_batch (chunk2 topic_configs)
  if r.2.isEmpty then (r.1, all_batches_failed_result)
  else
    (r.1,
      { success := true, questions := r.2, total_questions := r.2.length,
        generated_by := "groq_ai_batched", result_type := "aptitude_by_topic" })

/-- The largest topic count among the planner's sub-batch calls. -/
def max_batch_call_size : List BatchPlanEvent → Nat
  | [] => 0
  | .batch_call ts :: rest => max ts.length (max_batch_call_size rest)
  | .sleep_for _ :: rest => max_batch_call_size rest

/-- Count of sub-batch calls in an event trace. -/
def count_batch_calls (evs : List BatchPlanEvent) : Nat :=
  (evs.filter (fun e => match e with | .batch_call _ => true | _ => false)).length

/-- The 45-questions-across-3-topics missing-work list of the C6
scenario. -/
def c6_missing_configs : List MissingConfig :=
  [⟨"logical_reasoning", 15, 0, 0, 15⟩,
   ⟨"quantitative_aptitude", 0, 15, 0, 15⟩,
   ⟨"verbal_reasoning", 0, 0, 15, 15⟩]

/-- A sample question used as sub-batch output in concrete scenarios. -/
def sample_apt_question (n : Nat) : AptQuestion :=
  { topic := "verbal_reasoning", question := "sample question " ++ toString n,
    options := [("A", "a"), ("B", "b"), ("C", "c"), ("D", "d")],
    correct_answer := "A", difficulty := "hard", time_limit := 60 }

/-- A demonstration sub-batch runner for the C6 scenario: the first
sub-batch (the one without `verbal_reasoning`) fails and contributes
nothing, the second succeeds with one question. -/
def c6_demo_run_batch : List MissingConfig → Bool × List AptQuestion :=
  fun batch_topics =>
    if (batch_topics.map (fun mc => mc.topic)).contains "verbal_reasoning" then
      (true, [sample_apt_question 1])
    else (false, [sample_apt_question 2])

/-- `_get_fallback_structured_communication` (lines 2007-2055): one
error entry is appended per requested skill, in the order reading,
listening, grammar; the result reports `success: false` with metadata
`error_fallback`. -/
def get_fallback_structured_communication (skills : List String) : CommResult :=
  let questions :=
    (if "reading" ∈ skills then
      [({ title := "Reading Assessment Error",
          content := "AI service unavailable for reading assessment",
          passage := some "ERROR: AI not able to generate reading content. Please check AI service configuration.",
          skill := "reading", qtype := "error", difficulty := "error",
          time_limit := 60, error := true } : CommQuestion)]
     else []) ++
    (if "listening" ∈ skills then
      [({ title := "Listening Assessment Error",
          content := "AI service unavailable for listening assessment",
          audio_text := some "ERROR: AI not able to generate listening content. Please check AI service configuration.",
          skill := "listening", qtype := "error", difficulty := "error",
          time_limit := 60, error := true } : CommQuestion)]
     else []) ++
    (if "grammar" ∈ skills then
      [({ title := "Grammar Assessment Error",
          content := "AI service unavailable for grammar assessment",
          options := [("A", "ERROR"), ("B", "AI service"), ("C", "unavailable"), ("D", "for generation")],
          correct_answer := some "A",
          skill := "grammar", qtype := "error", difficulty := "error",
          time_limit := 60, error := true } : CommQuestion)]
     else [])
  { success := false, questions := questions, total_questions := questions.length,
    generated_by := "error_fallback", result_type := "structured_communication_error" }

/-- Python name resolution: looking up `name` in the set of names bound
in the enclosing function scope either succeeds or raises `NameError`. -/
def py_scope_lookup (scope : List String) (name : String) : Except String Unit :=
  if name ∈ scope then .ok () else .error ("NameError: name " ++ name ++ " is not defined")

/-- Names in scope at the `if not self.api_keys:` branch of
`generate_aptitude_questions_by_difficulty` (lines 2485-2491): exactly
the parameters — the branch is the first statement, before any local
assignment, and the module defines no global of these names. -/
def by_difficulty_scope : List String :=
  ["self", "topics", "difficulty_levels", "time_per_question", "job_title"]

/-- Names in scope at the `if not self.api_keys:` branch of
`generate_aptitude_questions` (lines 2592-2595): exactly the
parameters. -/
def generate_aptitude_scope : List String :=
  ["self", "topics", "questions_per_topic", "difficulty", "job_title",
   "topics_with_difficulty"]

/-- Names possibly bound when the outer `except` handler of
`generate_aptitude_questions` runs (lines 2714-2717): the parameters
plus every local the `try` body may have assigned, plus the exception
variable. -/
def generate_aptitude_exception_scope : List String :=
  generate_aptitude_scope ++
    ["topic_details", "total_questions", "topic_info", "prompt", "response",
     "result", "content", "questions_data", "e"]

/-- Evaluation of the call
`self._get_fallback_aptitude_questions(topic_configs, time_per_question, job_title)`
in a given scope: Python resolves the argument names left to right, so
the first unbound name raises `NameError`. -/
def fallback_call_name_resolution (scope : List String) : Except String Unit := do
  let _ ← py_scope_lookup scope "self"
  let _ ← py_scope_lookup scope "topic_configs"
  let _ ← py_scope_lookup scope "time_per_question"
  let _ ← py_scope_lookup scope "job_title"
  pure ()

/-- Listening time limit by difficulty:
`60 if difficulty == 'easy' else 90 if difficulty == 'medium' else 120`. -/
def listening_time_limit (difficulty : String) : Int :=
  if difficulty = "easy" then 60 else if difficulty = "medium" then 90 else 120

/-- Conversion of one parsed `{"difficulty": ..., "sentence": ...}` pair
into a question dict, from `_batch_generate_listening_questions` (lines
755-772). -/
def listening_sentence_question (difficulty sentence : String) : CommQuestion :=
  { title := "Sentence Repetition - " ++ difficulty.capitalize ++ " Level",
    content := "Listen to the sentence and repeat it exactly as you heard it.",
    audio_text := some sentence, skill := "listening", subtype := some "sentence",
    qtype := "listening", difficulty := difficulty,
    time_limit := listening_time_limit difficulty,
    evaluation_criteria := ["accuracy", "pronunciation", "fluency"],
    instructions := "Listen carefully to the sentence, then repeat it exactly as you heard it." }

/-- The `listening_templates['easy']` pool of
`_generate_listening_from_templates` (lines 796-800). -/
def listening_tfb_easy (job_title : String) : List String := [
  "Effective " ++ job_title ++ " professionals collaborate with teams.",
  "Modern " ++ job_title ++ " roles require continuous learning.",
  "Code reviews help maintain quality standards."]

/-- The `listening_templates['medium']` pool (lines 801-805). -/
def listening_tfb_medium (job_title : String) : List String := [
  "Agile methodologies enable " ++ job_title ++ " teams to respond quickly to changing requirements.",
  "Technical documentation is essential for " ++ job_title ++ " professionals to communicate concepts clearly.",
  "Version control systems help " ++ job_title ++ " teams track changes and collaborate efficiently."]

/-- The `listening_templates['hard']` pool (lines 806-808). -/
def listening_tfb_hard (job_title : String) : List String := [
  "Performance optimization is a critical skill for " ++ job_title ++ " professionals working on large-scale applications with complex architectural requirements."]

/-- One templated listening question of
`_generate_listening_from_templates` (lines 814-859). -/
def listening_template_fallback_question (difficulty : String) (time_limit : Int)
    (pool : List String) (i : Nat) : CommQuestion :=
  { title := "Sentence Repetition - " ++ difficulty.capitalize ++ " Level " ++ toString (i + 1),
    content := "Listen to the sentence and repeat it exactly as you heard it.",
    audio_text := some (pool.getD (i % pool.length) ""), skill := "listening",
    subtype := some "sentence", qtype := "listening", difficulty := difficulty,
    time_limit := time_limit,
    evaluation_criteria := ["accuracy", "pronunciation", "fluency"],
    instructions := "Listen carefully, then repeat exactly as you heard it." }

/-- `_generate_listening_from_templates` (lines 786-862); the
`sentences_config` sub-dict is passed directly. -/
def generate_listening_from_templates (sentences_config : DiffCounts)
    (job_title : String) : List CommQuestion :=
  (List.range sentences_config.easy.toNat).map
    (listening_template_fallback_question "easy" 60 (listening_tfb_easy job_title)) ++
  (List.range sentences_config.medium.toNat).map
    (listening_template_fallback_question "medium" 90 (listening_tfb_medium job_title)) ++
  (List.range sentences_config.hard.toNat).map
    (listening_template_fallback_question "hard" 120 (listening_tfb_hard job_title))

/-- Result of the single HTTP call of
`_batch_generate_listening_questions`: as for reading, a JSON parse
failure of the 200 payload raises inside the same `try` and lands in
`failure`. -/
inductive ListeningApiOutcome where
  | ok (sentences : List (String × String)) : ListeningApiOutcome
  | http_error (status_code : Nat) : ListeningApiOutcome
  | failure : ListeningApiOutcome
deriving DecidableEq

/-- `_batch_generate_listening_questions` (lines 690-784): same dispatch
as the reading batch path — converted items (without cardinality
adjustment) on a parsed 200 payload, template fallback on non-200 status
or exception. -/
def batch_generate_listening_questions (has_api_keys : Bool)
    (sentences_config : DiffCounts) (job_title : String)
    (outcome : ListeningApiOutcome) : List CommQuestion :=
  if !has_api_keys then []
  else if sentences_config.easy + sentences_config.medium + sentences_config.hard = 0 then []
  else
    match outcome with
    | .ok sentences_data =>
      sentences_data.map (fun sd => listening_sentence_question sd.1 sd.2)
    | .http_error _ => generate_listening_from_templates sentences_config job_title
    | .failure => generate_listening_from_templates sentences_config job_title

/-- One parsed item of the grammar batch payload (lines 1107-1117):
`topic`, `difficulty`, `question`, `options`, `correct_answer`, and
`q_data.get('explanation', '')`. -/
structure GrammarPayloadItem where
  topic : String
  difficulty : String
  question : String
  options : List (String × String)
  correct_answer : String
  explanation : String
deriving DecidableEq

/-- Grammar time limit by difficulty (line 1110):
`60 if difficulty == 'easy' else 90 if difficulty == 'medium' else 120`. -/
def grammar_time_limit (difficulty : String) : Int :=
  if difficulty = "easy" then 60 else if difficulty = "medium" then 90 else 120

/-- Conversion of one parsed grammar payload item into a question dict
(lines 1112-1125). -/
def grammar_payload_question (it : GrammarPayloadItem) : CommQuestion :=
  { title := "Grammar Assessment - " ++ it.difficulty.capitalize ++ " " ++ it.topic.capitalize,
    content := it.question, options := it.options,
    correct_answer := some it.correct_answer, skill := "grammar", qtype := "grammar",
    topic := some it.topic, difficulty := it.difficulty,
    time_limit := grammar_time_limit it.difficulty,
    evaluation_criteria := ["grammatical_accuracy", "language_knowledge"],
    instructions := "Select the most grammatically correct option." }

/-- Result of the single HTTP call of `_batch_generate_grammar_questions`. -/
inductive GrammarApiOutcome where
  | ok (items : List GrammarPayloadItem) : GrammarApiOutcome
  | http_error (status_code : Nat) : GrammarApiOutcome
  | failure : GrammarApiOutcome
deriving DecidableEq

/-- The dispatch of `_batch_generate_grammar_questions` (lines
1011-1137).  `templates_result` stands for the value
`_generate_grammar_from_templates(grammar_config, job_title)` would
return (its large static content table is a content detail; only the
dispatch is modelled): missing credentials, no topics, or a zero total
yield `[]`; a parsed 200 payload is converted item-for-item with no
cardinality adjustment; a non-200 status and an exception (which
includes a JSON parse failure of the 200 payload) both return the
template composer's output. -/
def batch_generate_grammar_questions (has_api_keys : Bool) (topics : List String)
    (total_questions : Int) (templates_result : List CommQuestion)
    (outcome : GrammarApiOutcome) : List CommQuestion :=
  if !has_api_keys then []
  else if topics.isEmpty then []
  else if total_questions = 0 then []
  else
    match outcome with
    | .ok items => items.map grammar_payload_question
    | .http_error _ => templates_result
    | .failure => templates_result

/-- Python `s[:n]` on a string: the first `n` characters. -/
def py_str_take (s : String) (n : Nat) : String :=
  ⟨s.data.take n⟩

/-- Python `s.lower()` (the texts involved are ASCII). -/
def py_lower (s : String) : String :=
  ⟨s.data.map Char.toLower⟩

/-- Python `pat in s` substring containment, for non-empty `pat`. -/
def py_contains_chars (pat : List Char) : List Char → Bool
  | [] => pat.isPrefixOf []
  | c :: t => pat.isPrefixOf (c :: t) || py_contains_chars pat t

/-- Python `pat in s`. -/
def py_contains (s pat : String) : Bool :=
  py_contains_chars pat.data s.data

/-- Python `s.replace(pat, repl)` on character lists: replace each
leftmost non-overlapping occurrence.  The fuel (the list length) covers
every step because each step consumes at least one character when `pat`
is non-empty (the only way it is called here). -/
def py_replace_chars : Nat → List Char → List Char → List Char → List Char
  | 0, l, _, _ => l
  | _ + 1, [], _, _ => []
  | fuel + 1, c :: t, pat, repl =>
    if pat.isPrefixOf (c :: t) then
      repl ++ py_replace_chars fuel (List.drop pat.length (c :: t)) pat repl
    else c :: py_replace_chars fuel t pat repl

/-- Python `s.replace(pat, repl)`. -/
def py_replace (s pat repl : String) : String :=
  ⟨py_replace_chars s.data.length s.data pat.data repl.data⟩

/-- Python `set.add` on a set modelled as a duplicate-free list. -/
def set_add (s : List Nat) (x : Nat) : List Nat :=
  if x ∈ s then s else s ++ [x]

/-- The mutable state threaded through a small-batch template fallback:
the normalised texts of already-emitted or persisted questions, the
category's `TemplateUsageSet` (`self.used_*_templates`), the questions
emitted so far, and the `generated_count`/`skipped_count` counters. -/
structure SmallBatchAcc where
  existing : List String
  used : List Nat
  questions : List CommQuestion
  generated : Nat
  skipped : Nat
deriving DecidableEq

/-- The `reading_templates` pool of `_generate_small_reading_batch`
(lines 1420-1440). -/
def small_reading_templates (job_title : String) : List String := [
  "Software development is a collaborative process that requires clear communication between team members. In " ++ job_title ++ " roles, professionals must effectively convey technical concepts to both technical and non-technical stakeholders. This includes writing clear documentation, participating in code reviews, and explaining complex algorithms in simple terms. Strong communication skills are essential for project success and team coordination.",
  "Modern " ++ job_title ++ " work involves continuous learning and adaptation to new technologies. Professionals in this field must stay updated with industry trends, programming languages, and development methodologies. They often participate in technical discussions, mentor junior developers, and contribute to architectural decisions. The ability to articulate technical solutions clearly is crucial for career advancement.",
  "Quality assurance and testing are integral parts of the " ++ job_title ++ " workflow. Developers must communicate effectively with QA teams, document bug reports clearly, and explain technical solutions to stakeholders. This requires strong verbal and written communication skills, as well as the ability to present complex technical information in an accessible manner.",
  "Project management in " ++ job_title ++ " roles requires excellent communication skills to coordinate with cross-functional teams. Developers must participate in daily standups, sprint planning meetings, and retrospectives. They need to clearly communicate progress, blockers, and technical challenges to ensure project success and maintain team alignment.",
  "Code review processes in " ++ job_title ++ " positions demand constructive communication and feedback skills. Developers must provide clear, actionable comments on code quality, suggest improvements, and explain best practices to colleagues. This collaborative approach helps maintain code standards and promotes knowledge sharing within the development team.",
  "Effective debugging is a crucial skill for " ++ job_title ++ " professionals. It requires systematic thinking, clear communication with team members about issues, and the ability to document solutions for future reference. Developers must explain complex technical problems to stakeholders and collaborate with others to find efficient solutions.",
  "Version control and collaboration are fundamental aspects of " ++ job_title ++ " work. Professionals must communicate changes clearly through commit messages, participate in pull request reviews, and coordinate with team members on feature development. Clear communication prevents conflicts and ensures smooth project progression.",
  "Performance optimization requires " ++ job_title ++ " professionals to analyze system bottlenecks and communicate findings effectively. They must present technical solutions to both technical and business stakeholders, explaining the impact of optimizations on user experience and system reliability.",
  "Security considerations are paramount in " ++ job_title ++ " roles. Professionals must communicate security requirements clearly, document potential vulnerabilities, and collaborate with security teams to implement robust solutions. Clear communication about security practices protects both the application and user data.",
  "Continuous integration and deployment practices require " ++ job_title ++ " professionals to communicate effectively about build processes, testing strategies, and deployment procedures. They must document workflows clearly and coordinate with DevOps teams to ensure reliable software delivery."]

/-- One pool question of the small reading batch fallback (lines
1453-1463). -/
def small_reading_template_question (generated_count : Nat) (passage : String) : CommQuestion :=
  { title := "Reading Assessment - Template " ++ toString (generated_count + 1),
    content := "Please read the following passage aloud clearly and naturally.",
    passage := some passage, skill := "reading", qtype := "reading_aloud",
    difficulty := "medium", time_limit := 180,
    evaluation_criteria := ["pronunciation", "fluency", "pace", "clarity"],
    instructions := "Read the paragraph aloud at a natural pace." }

/-- One synthetic-variation question of the small reading batch fallback
(lines 1514-1524). -/
def small_reading_variation_question (generated_count : Nat) (passage : String) : CommQuestion :=
  { title := "Reading Assessment - Variation " ++ toString (generated_count + 1),
    content := "Please read the following passage aloud clearly and naturally.",
    passage := some passage, skill := "reading", qtype := "reading_aloud",
    difficulty := "medium", time_limit := 180,
    evaluation_criteria := ["pronunciation", "fluency", "pace", "clarity"],
    instructions := "Read the paragraph aloud at a natural pace." }

/-- `_create_reading_variation` (lines 1921-1941). -/
def create_reading_variation (base_passage job_title : String) (variation_number : Nat) : String :=
  let variations := [
    "In collaborative " ++ job_title ++ " environments, " ++ py_lower base_passage ++ " Team coordination and effective communication are essential for project success.",
    "Modern " ++ job_title ++ " practices emphasize that " ++ py_lower base_passage ++ " This approach ensures sustainable development and maintainable code quality.",
    "When facing complex challenges, " ++ job_title ++ " professionals find that " ++ py_lower base_passage ++ " These skills become increasingly important in dynamic work environments.",
    "For career advancement in " ++ job_title ++ " roles, it\x27s important to understand that " ++ py_lower base_passage ++ " Professional development requires continuous learning and adaptation.",
    "According to industry best practices, " ++ job_title ++ " professionals should recognize that " ++ py_lower base_passage ++ " These standards help maintain consistency across development teams."]
  variations.getD ((variation_number - 1) % variations.length) ""

/-- One iteration of the first reading template pass (lines 1447-1470):
visited only while `generated_count < questions_to_generate`; a pool
entry is emitted unless its 50-character key is already known or its
index is in the usage set; emission records both. -/
def reading_pass1_step (templates : List String) (need : Nat)
    (acc : SmallBatchAcc) (template_index : Nat) : SmallBatchAcc :=
  if acc.generated < need then
    let passage := templates.getD template_index ""
    let passage_key := py_str_take passage 50
    if passage_key ∉ acc.existing ∧ template_index ∉ acc.used then
      { acc with
        questions := acc.questions ++ [small_reading_template_question acc.generated passage],
        existing := acc.existing ++ [passage_key],
        used := set_add acc.used template_index,
        generated := acc.generated + 1 }
    else { acc with skipped := acc.skipped + 1 }
  else acc

/-- One iteration of the second reading pass after the usage set was
cleared (lines 1478-1499): indices continue from `len(templates)` up to
`2 * len(templates)`, wrapped by `% len(templates)`; persisted
duplicates are still skipped; there is no skip counter here. -/
def reading_pass2_step (templates : List String) (need : Nat)
    (acc : SmallBatchAcc) (template_index : Nat) : SmallBatchAcc :=
  if acc.generated < need then
    let actual_index := template_index % templates.length
    let passage := templates.getD actual_index ""
    let passage_key := py_str_take passage 50
    if passage_key ∉ acc.existing ∧ actual_index ∉ acc.used then
      { acc with
        questions := acc.questions ++ [small_reading_template_question acc.generated passage],
        existing := acc.existing ++ [passage_key],
        used := set_add acc.used actual_index,
        generated := acc.generated + 1 }
    else acc
  else acc

/-- The template-fallback portion of `_generate_small_reading_batch`
(lines 1409-1530): first pass over the pool; if still short and the
usage set covers the whole pool, clear the usage set and run a second
pass; finally top up with synthetic variations.  Returns the emitted
questions together with the final `used_reading_templates` set. -/
def generate_small_reading_batch_fallback (job_title : String)
    (questions_to_generate : Nat) (existing_passages : List String)
    (used_reading_templates : List Nat) : List CommQuestion × List Nat :=
  let templates := small_reading_templates job_title
  let acc0 : SmallBatchAcc := ⟨existing_passages, used_reading_templates, [], 0, 0⟩
  let acc1 := (List.range templates.length).foldl
    (reading_pass1_step templates questions_to_generate) acc0
  let acc2 :=
    if acc1.generated < questions_to_generate ∧ templates.length ≤ acc1.used.length then
      (List.range' templates.length templates.length).foldl
        (reading_pass2_step templates questions_to_generate) { acc1 with used := [] }
    else acc1
  let remaining := questions_to_generate - acc2.generated
  let accF := (List.range remaining).foldl (fun acc i =>
    { acc with
      questions := acc.questions ++
        [small_reading_variation_question acc.generated
          (create_reading_variation (templates.getD (i % templates.length) "")
            job_title (i + 1))],
      generated := acc.generated + 1 }) acc2
  (accF.questions, accF.used)

/-- The `listening_templates` pool of `_generate_small_listening_batch`
(lines 1610-1623). -/
def small_listening_templates (job_title : String) : List String := [
  "Effective " ++ job_title ++ " professionals collaborate closely with cross-functional teams to deliver high-quality software solutions.",
  "Modern " ++ job_title ++ " roles require continuous learning and adaptation to emerging technologies and industry best practices.",
  "Code review processes help " ++ job_title ++ " teams maintain consistent quality standards and share knowledge effectively.",
  "Agile methodologies enable " ++ job_title ++ " teams to respond quickly to changing requirements and deliver value iteratively.",
  "Technical documentation is essential for " ++ job_title ++ " professionals to communicate complex concepts clearly and accurately.",
  "Version control systems help " ++ job_title ++ " teams track changes and collaborate efficiently on software projects.",
  "Testing strategies ensure that " ++ job_title ++ " professionals deliver reliable and maintainable software applications.",
  "Performance optimization is a critical skill for " ++ job_title ++ " professionals working on large-scale applications.",
  "Database design and optimization require " ++ job_title ++ " professionals to understand complex relationships and performance implications.",
  "User experience considerations guide " ++ job_title ++ " professionals in creating intuitive and accessible software interfaces.",
  "Security best practices are fundamental knowledge for " ++ job_title ++ " professionals working with sensitive data systems.",
  "Microservices architecture enables " ++ job_title ++ " teams to build scalable and maintainable distributed systems effectively."]

/-- One pool question of the small listening batch fallback (lines
1635-1646). -/
def small_listening_template_question (generated_count : Nat) (sentence : String) : CommQuestion :=
  { title := "Sentence Repetition - Template " ++ toString (generated_count + 1),
    content := "Listen to the sentence and repeat it exactly as you heard it.",
    audio_text := some sentence, skill := "listening", subtype := some "sentence",
    qtype := "listening", difficulty := "medium", time_limit := 90,
    evaluation_criteria := ["accuracy", "pronunciation", "fluency"],
    instructions := "Listen carefully, then repeat exactly as you heard it." }

/-- One synthetic-variation question of the small listening batch
fallback (lines 1668-1679). -/
def small_listening_variation_question (generated_count : Nat) (sentence : String) : CommQuestion :=
  { title := "Sentence Repetition - Variation " ++ toString (generated_count + 1),
    content := "Listen to the sentence and repeat it exactly as you heard it.",
    audio_text := some sentence, skill := "listening", subtype := some "sentence",
    qtype := "listening", difficulty := "medium", time_limit := 90,
    evaluation_criteria := ["accuracy", "pronunciation", "fluency"],
    instructions := "Listen carefully, then repeat exactly as you heard it." }

/-- `_create_listening_variation` (lines 1943-1954). -/
def create_listening_variation (base_sentence job_title : String) (variation_number : Nat) : String :=
  let variations := [
    "In today\x27s market, " ++ py_lower base_sentence,
    "According to recent studies, " ++ py_lower base_sentence,
    "Industry experts agree that " ++ py_lower base_sentence,
    "For successful " ++ job_title ++ " careers, " ++ py_lower base_sentence,
    "Research shows that " ++ py_lower base_sentence]
  variations.getD ((variation_number - 1) % variations.length) ""

/-- One iteration of the (only) listening template pass (lines
1630-1653); the duplicate key is the whole sentence. -/
def listening_pass_step (templates : List String) (need : Nat)
    (acc : SmallBatchAcc) (template_index : Nat) : SmallBatchAcc :=
  if acc.generated < need then
    let sentence := templates.getD template_index ""
    if sentence ∉ acc.existing ∧ template_index ∉ acc.used then
      { acc with
        questions := acc.questions ++ [small_listening_template_question acc.generated sentence],
        existing := acc.existing ++ [sentence],
        used := set_add acc.used template_index,
        generated := acc.generated + 1 }
    else { acc with skipped := acc.skipped + 1 }
  else acc

/-- The template-fallback portion of `_generate_small_listening_batch`
(lines 1600-1685): one pass over the pool, then — unlike the reading
path — directly the synthetic-variation top-up, with no clearing of the
usage set and no second pass. -/
def generate_small_listening_batch_fallback (job_title : String)
    (questions_to_generate : Nat) (existing_sentences : List String)
    (used_listening_templates : List Nat) : List CommQuestion × List Nat :=
  let templates := small_listening_templates job_title
  let acc0 : SmallBatchAcc := ⟨existing_sentences, used_listening_templates, [], 0, 0⟩
  let acc1 := (List.range templates.length).foldl
    (listening_pass_step templates questions_to_generate) acc0
  let remaining := questions_to_generate - acc1.generated
  let accF := (List.range remaining).foldl (fun acc i =>
    { acc with
      questions := acc.questions ++
        [small_listening_variation_question acc.generated
          (create_listening_variation (templates.getD (i % templates.length) "")
            job_title (i + 1))],
      generated := acc.generated + 1 }) acc1
  (accF.questions, accF.used)

/-- One entry of the `grammar_templates` pool of
`_generate_small_grammar_batch`. -/
structure GrammarTemplate where
  question : String
  options : List (String × String)
  correct_answer : String
deriving DecidableEq

/-- The `grammar_templates` pool (lines 1773-1854). -/
def small_grammar_templates : List GrammarTemplate := [
  ⟨"Which sentence uses the correct present perfect tense?", [("A", "I have completed the project yesterday."), ("B", "I completed the project yesterday."), ("C", "I have completed the project."), ("D", "I am completing the project yesterday.")], "C"⟩,
  ⟨"Choose the correct article for the sentence: \x27She is ___ software developer.\x27", [("A", "a"), ("B", "an"), ("C", "the"), ("D", "no article needed")], "A"⟩,
  ⟨"Which preposition correctly completes: \x27The team worked ___ the deadline.\x27", [("A", "in"), ("B", "on"), ("C", "at"), ("D", "towards")], "D"⟩,
  ⟨"Select the sentence with correct subject-verb agreement:", [("A", "The data are being processed."), ("B", "The data is being processed."), ("C", "The data were being processed."), ("D", "The data was being processed.")], "A"⟩,
  ⟨"Which sentence uses the past perfect tense correctly?", [("A", "I had finished the code before the meeting started."), ("B", "I have finished the code before the meeting started."), ("C", "I finished the code before the meeting started."), ("D", "I was finishing the code before the meeting started.")], "A"⟩,
  ⟨"Identify the correct use of conditional sentences:", [("A", "If I would have time, I will help you."), ("B", "If I have time, I will help you."), ("C", "If I had time, I will help you."), ("D", "If I have time, I would help you.")], "B"⟩,
  ⟨"Which sentence correctly uses passive voice?", [("A", "The code is being reviewed by the team."), ("B", "The code is being review by the team."), ("C", "The code is been reviewed by the team."), ("D", "The code is being reviewing by the team.")], "A"⟩,
  ⟨"Choose the correct pronoun: \x27The manager gave the task to John and ___.\x27", [("A", "I"), ("B", "me"), ("C", "myself"), ("D", "mine")], "B"⟩]

/-- One pool question of the small grammar batch fallback (lines
1867-1879). -/
def small_grammar_template_question (generated_count : Nat) (t : GrammarTemplate) : CommQuestion :=
  { title := "Grammar Assessment - Template " ++ toString (generated_count + 1),
    content := t.question, options := t.options,
    correct_answer := some t.correct_answer, skill := "grammar", qtype := "grammar",
    topic := some "mixed", difficulty := "medium", time_limit := 90,
    evaluation_criteria := ["grammatical_accuracy", "language_knowledge"],
    instructions := "Select the most grammatically correct option." }

/-- One synthetic-variation question of the small grammar batch fallback
(lines 1901-1913). -/
def small_grammar_variation_question (generated_count : Nat) (t : GrammarTemplate) : CommQuestion :=
  { title := "Grammar Assessment - Variation " ++ toString (generated_count + 1),
    content := t.question, options := t.options,
    correct_answer := some t.correct_answer, skill := "grammar", qtype := "grammar",
    topic := some "mixed", difficulty := "medium", time_limit := 90,
    evaluation_criteria := ["grammatical_accuracy", "language_knowledge"],
    instructions := "Select the most grammatically correct option." }

/-- The `question_variations` table of `_create_grammar_variation`
(lines 1959-1975), in insertion order. -/
def grammar_question_variations : List (String × List String) := [
  ("Which sentence uses the correct present perfect tense?",
    ["Select the sentence with proper present perfect tense usage:",
     "Identify the correct present perfect tense construction:",
     "Choose the grammatically correct present perfect sentence:"]),
  ("Choose the correct article for the sentence:",
    ["Select the appropriate article:",
     "Pick the correct article usage:",
     "Identify the proper article:"]),
  ("Which preposition correctly completes:",
    ["Select the appropriate preposition for:",
     "Choose the correct preposition to complete:",
     "Pick the right preposition for:"])]

/-- `_create_grammar_variation` (lines 1956-2005).  When some table key
occurs in the question, the code replaces occurrences of the FIRST
table key (`list(question_variations.keys())[0]`) — not the matched key
— with the chosen variation, so for the other keys the question is
returned unchanged; without a match a rotating prefix is prepended to
the lower-cased question. -/
def create_grammar_variation (base_question : GrammarTemplate)
    (variation_number : Nat) : GrammarTemplate :=
  let original_question := base_question.question
  let variations :=
    ((grammar_question_variations.find?
      (fun kv => py_contains original_question kv.1)).map (fun kv => kv.2)).getD []
  if variations.isEmpty then
    let prefixes := ["In professional contexts, ", "For workplace communication, ",
      "In business settings, "]
    { base_question with
      question := prefixes.getD ((variation_number - 1) % prefixes.length) "" ++
        py_lower original_question }
  else
    let first_key := (grammar_question_variations.getD 0 ("", [])).1
    { base_question with
      question := py_replace original_question first_key
        (variations.getD ((variation_number - 1) % variations.length) "") }

/-- One iteration of the (only) grammar template pass (lines
1861-1886); the duplicate key is the question text. -/
def grammar_pass_step (templates : List GrammarTemplate) (need : Nat)
    (acc : SmallBatchAcc) (template_index : Nat) : SmallBatchAcc :=
  if acc.generated < need then
    let template := templates.getD template_index ⟨"", [], ""⟩
    let question_text := template.question
    if question_text ∉ acc.existing ∧ template_index ∉ acc.used then
      { acc with
        questions := acc.questions ++ [small_grammar_template_question acc.generated template],
        existing := acc.existing ++ [question_text],
        used := set_add acc.used template_index,
        generated := acc.generated + 1 }
    else { acc with skipped := acc.skipped + 1 }
  else acc

/-- The template-fallback portion of `_generate_small_grammar_batch`
(lines 1763-1919): one pass over the pool, then — like listening and
unlike reading — directly the synthetic-variation top-up, with no
clearing of the usage set and no second pass. -/
def generate_small_grammar_batch_fallback (questions_to_generate : Nat)
    (existing_question_texts : List String)
    (used_grammar_templates : List Nat) : List CommQuestion × List Nat :=
  let templates := small_grammar_templates
  let acc0 : SmallBatchAcc := ⟨existing_question_texts, used_grammar_templates, [], 0, 0⟩
  let acc1 := (List.range templates.length).foldl
    (grammar_pass_step templates questions_to_generate) acc0
  let remaining := questions_to_generate - acc1.generated
  let accF := (List.range remaining).foldl (fun acc i =>
    { acc with
      questions := acc.questions ++
        [small_grammar_variation_question acc.generated
          (create_grammar_variation (templates.getD (i % templates.length) ⟨"", [], ""⟩)
            (i + 1))],
      generated := acc.generated + 1 }) acc1
  (accF.questions, accF.used)

end HRMS

namespace HRMS

/-- C1 helper: `calculate_missing_questions` filters the per-topic spec
formula by positive total. -/
theorem calculate_missing_eq_filter (tcs : List TopicConfig)
    (ex : String → Option DiffCounts) :
    calculate_missing_questions tcs ex =
      (tcs.map (fun tc => spec_missing_work tc ex)).filter (fun m => 0 < m.total) := by
  induction tcs with
  | nil => rfl
  | cons tc rest ih =>
    have key : calculate_missing_questions (tc :: rest) ex =
        (if 0 < (spec_missing_work tc ex).total then
          spec_missing_work tc ex :: calculate_missing_questions rest ex
        else calculate_missing_questions rest ex) := rfl
    rw [key, List.map_cons, List.filter_cons]
    by_cases h : 0 < (spec_missing_work tc ex).total <;> simp [h, ih]

/-- C1: for every list of topic configurations and every existing-count
map, `_calculate_missing_questions` produces per topic and per difficulty
a missing count equal to `max 0 (requested - existing)`, sets each
entry's `total` to the sum of its three missing counts, and emits exactly
the (in-order) entries whose missing total is positive, omitting every
topic whose missing total is zero. -/
theorem c1_calculate_missing_questions_correct (tcs : List TopicConfig)
    (ex : String → Option DiffCounts) :
    calculate_missing_questions tcs ex =
      (tcs.map (fun tc => spec_missing_work tc ex)).filter (fun m => 0 < m.total) ∧
    (∀ mc ∈ calculate_missing_questions tcs ex,
      mc.total = mc.easy + mc.medium + mc.hard ∧ 0 < mc.total) ∧
    (∀ tc ∈ tcs, (spec_missing_work tc ex).total = 0 →
      spec_missing_work tc ex ∉ calculate_missing_questions tcs ex) := by
  refine ⟨calculate_missing_eq_filter tcs ex, ?_, ?_⟩
  · intro mc hmc
    rw [calculate_missing_eq_filter] at hmc
    have h2 := List.of_mem_filter hmc
    have h1 := List.mem_of_mem_filter hmc
    simp only [decide_eq_true_eq] at h2
    refine ⟨?_, h2⟩
    rcases List.mem_map.mp h1 with ⟨tc, _, rfl⟩
    rfl
  · intro tc _ htotal hmem
    rw [calculate_missing_eq_filter] at hmem
    have h2 := List.of_mem_filter hmem
    simp only [decide_eq_true_eq] at h2
    omega

/-- Unfolding of one rotation when at least two credentials exist. -/
theorem rotate_state_two_le (s : GroqKeyState) (h2 : 2 ≤ s.api_keys.length) :
    rotate_state s = ⟨s.api_keys, (s.current_key_index + 1) % s.api_keys.length⟩ := by
  simp [rotate_state, rotate_api_key, Nat.not_le.mpr (Nat.lt_of_lt_of_le Nat.one_lt_two h2),
    show ¬ s.api_keys.length ≤ 1 from by omega]

/-- Index after `n` rotations, for a credential set of size at least two. -/
theorem rotate_state_iterate (n : Nat) :
    ∀ s : GroqKeyState, 2 ≤ s.api_keys.length →
      s.current_key_index < s.api_keys.length →
      rotate_state^[n] s =
        ⟨s.api_keys, (s.current_key_index + n) % s.api_keys.length⟩ := by
  induction n with
  | zero =>
    intro s h2 hidx
    simp [Nat.mod_eq_of_lt hidx]
  | succ n ih =>
    intro s h2 hidx
    rw [Function.iterate_succ_apply, rotate_state_two_le s h2]
    have hlen : 0 < s.api_keys.length := by omega
    rw [ih ⟨s.api_keys, (s.current_key_index + 1) % s.api_keys.length⟩ h2
      (Nat.mod_lt _ hlen)]
    simp only [Nat.mod_add_mod]
    have harith : s.current_key_index + 1 + n = s.current_key_index + (n + 1) := by omega
    rw [harith]

/-- C7: credential rotation is circular and deterministic.  For any state
whose index is in range, `length` consecutive rotations restore the
state; rotation on a set of zero or one credentials returns `false` and
leaves the state unchanged; no rotation ever removes a credential; and a
successful rotation happens exactly when at least two credentials exist. -/
theorem c7_rotate_api_key_circular (s : GroqKeyState) :
    (s.current_key_index < s.api_keys.length →
      rotate_state^[s.api_keys.length] s = s) ∧
    (s.api_keys.length ≤ 1 → rotate_api_key s = (false, s)) ∧
    ((rotate_api_key s).2.api_keys = s.api_keys) ∧
    ((rotate_api_key s).1 = (decide (2 ≤ s.api_keys.length))) := by
  refine ⟨?_, ?_, ?_, ?_⟩
  · intro hidx
    rcases Nat.lt_or_ge s.api_keys.length 2 with hlt | hge
    · exact Function.iterate_fixed
        (by simp [rotate_state, rotate_api_key, Nat.lt_succ_iff.mp hlt]) _
    · rw [rotate_state_iterate _ s hge hidx, Nat.add_mod_right, Nat.mod_eq_of_lt hidx]
  · intro h
    simp [rotate_api_key, h]
  · by_cases h : s.api_keys.length ≤ 1 <;> simp [rotate_api_key, h]
  · by_cases h : s.api_keys.length ≤ 1 <;> simp [rotate_api_key, h] <;> omega

/-- Each per-topic/per-difficulty selection emits exactly `count`
questions (clamped at zero for non-positive counts). -/
theorem pick_fallback_questions_length (topic difficulty : String) (count t : Int) :
    (pick_fallback_questions topic difficulty count t).length = count.toNat := by
  unfold pick_fallback_questions
  by_cases h : 0 < count
  · simp [h]
  · simp [h, Int.toNat_of_nonpos (le_of_not_lt h)]

/-- The fallback composer emits, per topic, the sum of the clamped
per-difficulty counts. -/
theorem fallback_questions_length (tcs : List TopicConfig) (t : Int) :
    (get_fallback_aptitude_questions tcs t).questions.length =
      (tcs.map (fun tc => tc.easy.toNat + tc.medium.toNat + tc.hard.toNat)).sum := by
  induction tcs with
  | nil => rfl
  | cons tc rest ih =>
    have key : (get_fallback_aptitude_questions (tc :: rest) t).questions =
        (pick_fallback_questions tc.topic "easy" tc.easy t ++
         pick_fallback_questions tc.topic "medium" tc.medium t ++
         pick_fallback_questions tc.topic "hard" tc.hard t) ++
        (get_fallback_aptitude_questions rest t).questions := rfl
    rw [key]
    simp only [List.length_append, pick_fallback_questions_length, ih,
      List.map_cons, List.sum_cons]

/-- C3: for every list of topic configurations with non-negative
per-difficulty counts, `_get_fallback_aptitude_questions` returns success
and a question list whose length is exactly the requested total — for
unknown topics and for counts exceeding the static pool size alike. -/
theorem c3_fallback_exact_count (tcs : List TopicConfig) (t : Int)
    (hnn : ∀ tc ∈ tcs, 0 ≤ tc.easy ∧ 0 ≤ tc.medium ∧ 0 ≤ tc.hard) :
    (get_fallback_aptitude_questions tcs t).success = true ∧
    ((get_fallback_aptitude_questions tcs t).questions.length : Int) =
      requested_total tcs := by
  refine ⟨rfl, ?_⟩
  rw [fallback_questions_length]
  induction tcs with
  | nil => rfl
  | cons tc rest ih =>
    have htc := hnn tc (List.mem_cons_self tc rest)
    have ih2 := ih (fun tc2 h2 => hnn tc2 (List.mem_cons_of_mem tc h2))
    simp only [List.map_cons, List.sum_cons, requested_total] at *
    push_cast at ih2 ⊢
    omega

/-- C3 witness: a request mixing a known topic, an unknown topic, and a
count (30) exceeding every static pool emits exactly 36 = 3 + 2 + 1 + 30
questions. -/
theorem c3_fallback_witness :
    (get_fallback_aptitude_questions
      [⟨"logical_reasoning", 3, 0, 0⟩, ⟨"topic_x", 2, 1, 30⟩] 60).success = true ∧
    ((get_fallback_aptitude_questions
      [⟨"logical_reasoning", 3, 0, 0⟩, ⟨"topic_x", 2, 1, 30⟩] 60).questions.length : Int) =
      36 := by
  have h := c3_fallback_exact_count
    [⟨"logical_reasoning", 3, 0, 0⟩, ⟨"topic_x", 2, 1, 30⟩] 60 (by decide)
  exact ⟨h.1, by rw [h.2]; decide⟩

/-- Under an all-429 provider the retry loop always ends rate-limited. -/
theorem run_all429_status (n : Nat) :
    ∀ s, (run_key_attempts all_429 n s).2.1 = 429 := by
  induction n with
  | zero => intro s; rfl
  | succ n ih => intro s; simp [run_key_attempts, retry_on_key, all_429, ih]

/-- Under an all-429 provider, each credential contributes exactly one
5-second backoff sleep. -/
theorem run_all429_sleeps (n : Nat) :
    ∀ s, (run_key_attempts all_429 n s).1.filter is_sleep_event =
      List.replicate n (GroqEvent.sleep_for 5) := by
  induction n with
  | zero => intro s; rfl
  | succ n ih =>
    intro s
    simp [run_key_attempts, retry_on_key, all_429, is_sleep_event, ih,
      List.replicate_succ]

/-- Under an all-429 provider, no 10-second sleep ever occurs. -/
theorem run_all429_no_ten (n : Nat) :
    ∀ s, GroqEvent.sleep_for 10 ∉ (run_key_attempts all_429 n s).1 := by
  induction n with
  | zero => intro s; simp [run_key_attempts]
  | succ n ih => intro s; simp [run_key_attempts, retry_on_key, all_429, ih]

/-- C4 (amended): on HTTP 429 each credential is attempted at most
twice (one retry) with a single 5-second backoff — the 10-second delay
of the `5 * (retry + 1)` formula is unreachable because the last allowed
attempt does not sleep; a still-rate-limited credential is rotated past;
and when every credential stays rate-limited the call returns the
template fallback result, whose metadata generator tag is
`fallback_templates` (template origin, not AI origin). -/
theorem c4_rate_limited_exhaustion_falls_back (s : GroqKeyState)
    (outcome : AptParseOutcome) (tcs : List TopicConfig) (total t : Int) :
    (generate_aptitude_by_topic_attempt all_429 outcome s tcs total t).2 =
      get_fallback_aptitude_questions tcs t ∧
    (generate_aptitude_by_topic_attempt all_429 outcome s tcs total t).2.generated_by =
      "fallback_templates" ∧
    (generate_aptitude_by_topic_attempt all_429 outcome s tcs total t).1.filter
      is_sleep_event = List.replicate s.api_keys.length (GroqEvent.sleep_for 5) ∧
    GroqEvent.sleep_for 10 ∉
      (generate_aptitude_by_topic_attempt all_429 outcome s tcs total t).1 := by
  have hst := run_all429_status s.api_keys.length s
  refine ⟨?_, ?_, ?_, ?_⟩
  · simp [generate_aptitude_by_topic_attempt, aptitude_response_dispatch, hst]
  · simp [generate_aptitude_by_topic_attempt, aptitude_response_dispatch, hst,
      get_fallback_aptitude_questions]
  · simpa [generate_aptitude_by_topic_attempt] using run_all429_sleeps s.api_keys.length s
  · simpa [generate_aptitude_by_topic_attempt] using run_all429_no_ten s.api_keys.length s

/-- C4 counterexample: with one always-rate-limited credential the full
event trace is attempt, 5-second sleep, attempt, failed rotation —
exactly one retry with one 5-second backoff, never a second retry with a
10-second backoff as the claim states. -/
theorem c4_counterexample_backoff_trace :
    (run_key_attempts all_429 1 ⟨["k0"], 0⟩).1 =
      [.attempt 0 0, .sleep_for 5, .attempt 0 1, .rotate false] ∧
    ((run_key_attempts all_429 1 ⟨["k0"], 0⟩).1.filter is_attempt_event).length = 2 ∧
    decide ((run_key_attempts all_429 1 ⟨["k0"], 0⟩).1.filter is_sleep_event =
      [GroqEvent.sleep_for 5, GroqEvent.sleep_for 10]) = false := by
  decide

/-- C2 (amended): the aptitude single-call success path and the
sub-batch success path return exactly the first `total` provider items
in order (so `length ≤ total`) and never pad; but the batch reading
success path and the by-difficulty success path return the provider's
items unchanged, with no trimming (and no padding) at all. -/
theorem c2_success_cardinality (total : Int) (gen : List AptQuestion)
    (h : 0 ≤ total) :
    ((aptitude_handle_200 total (.parsed gen)).success = true ∧
     (aptitude_handle_200 total (.parsed gen)).questions = gen.take total.toNat ∧
     ((aptitude_handle_200 total (.parsed gen)).questions.length : Int) ≤ total) ∧
    ((generate_single_batch_200 total gen).1 = true ∧
     (generate_single_batch_200 total gen).2 = gen.take total.toNat) ∧
    (∀ (cfg : DiffCounts) (job : String) (ps : List (String × String)),
      batch_generate_reading_questions true cfg job (.ok ps) =
        (if cfg.easy + cfg.medium + cfg.hard = 0 then []
         else ps.map (fun pd => reading_passage_question pd.1 pd.2))) ∧
    (∀ (qs : List AptQuestion) (pt : Int) (pg : String),
      (generate_by_difficulty_200 qs pt pg).success = true ∧
      (generate_by_difficulty_200 qs pt pg).questions = qs) := by
  have htake : (if total < (gen.length : Int) then py_slice_to gen total else gen) =
      gen.take total.toNat := by
    by_cases hlt : total < (gen.length : Int)
    · simp [hlt, py_slice_to, h]
    · rw [if_neg hlt, Eq.comm, List.take_of_length_le]
      omega
  refine ⟨⟨rfl, ?_, ?_⟩, ⟨rfl, ?_⟩, ?_, ?_⟩
  · simpa [aptitude_handle_200] using htake
  · have hq : (aptitude_handle_200 total (.parsed gen)).questions = gen.take total.toNat := by
      simpa [aptitude_handle_200] using htake
    rw [hq, List.length_take]
    omega
  · simpa [generate_single_batch_200] using htake
  · intro cfg job ps
    by_cases h0 : cfg.easy + cfg.medium + cfg.hard = 0 <;>
      simp [batch_generate_reading_questions, h0]
  · intro qs pt pg
    exact ⟨rfl, rfl⟩

/-- C2 witness: a request for 2 questions answered with 3 provider items
keeps exactly the first 2 in order. -/
theorem c2_success_cardinality_witness :
    (aptitude_handle_200 2 (.parsed
      [sample_apt_question 1, sample_apt_question 2, sample_apt_question 3])).questions =
      [sample_apt_question 1, sample_apt_question 2] ∧
    ((aptitude_handle_200 2 (.parsed
      [sample_apt_question 1, sample_apt_question 2, sample_apt_question 3])).questions.length
        : Int) ≤ 2 := by
  have h := c2_success_cardinality 2
    [sample_apt_question 1, sample_apt_question 2, sample_apt_question 3] (by decide)
  exact ⟨h.1.2.1.trans (by decide), h.1.2.2⟩

/-- C2 counterexample: the batch reading success path, asked for 1
passage (easy = 1) and answered with 2 provider items, returns all 2 —
more than the requested total, refuting the claim that every successful
AI generation returns at most the requested number of questions. -/
theorem c2_counterexample_reading_over_generation :
    (batch_generate_reading_questions true ⟨1, 0, 0⟩ "Software Developer"
      (.ok [("easy", "First passage."), ("easy", "Second passage.")])).length = 2 ∧
    decide ((batch_generate_reading_questions true ⟨1, 0, 0⟩ "Software Developer"
      (.ok [("easy", "First passage."), ("easy", "Second passage.")])).length ≤ 1) =
      false := by
  constructor
  · rfl
  · rfl

/-- C5: on a 200 response whose payload fails to parse, the main
aptitude path returns a distinct `success: false` error result tagged
`generated_by = 'error'` (with `type` distinguishing truncation
signatures — `"Unterminated string" in str(e)` or a payload not ending
in `}` — from plain parse errors) and never the template fallback;
whereas the reading, listening and grammar batch paths return on a parse
failure exactly what they return on a transport (non-200) error: the
silent template fallback. -/
theorem c5_parse_failure_asymmetry :
    (∀ (msg : String) (u b : Bool) (total : Int),
      (aptitude_handle_200 total (.parse_error msg u b)).success = false ∧
      (aptitude_handle_200 total (.parse_error msg u b)).generated_by = "error" ∧
      (aptitude_handle_200 total (.parse_error msg u b)).result_type =
        (if u || !b then "truncated_response_error" else "json_parse_error")) ∧
    (∀ (cfg : DiffCounts) (job : String) (code : Nat),
      batch_generate_reading_questions true cfg job .failure =
        (if cfg.easy + cfg.medium + cfg.hard = 0 then []
         else generate_reading_from_templates cfg job) ∧
      batch_generate_reading_questions true cfg job .failure =
        batch_generate_reading_questions true cfg job (.http_error code)) ∧
    (∀ (cfg : DiffCounts) (job : String) (code : Nat),
      batch_generate_listening_questions true cfg job .failure =
        (if cfg.easy + cfg.medium + cfg.hard = 0 then []
         else generate_listening_from_templates cfg job) ∧
      batch_generate_listening_questions true cfg job .failure =
        batch_generate_listening_questions true cfg job (.http_error code)) ∧
    (∀ (topics : List String) (total : Int) (tr : List CommQuestion) (code : Nat),
      batch_generate_grammar_questions true topics total tr .failure =
        batch_generate_grammar_questions true topics total tr (.http_error code)) := by
  refine ⟨?_, ?_, ?_, ?_⟩
  · intro msg u b total
    cases u <;> cases b <;>
      simp [aptitude_handle_200, truncated_response_error_result, json_parse_error_result]
  · intro cfg job code
    by_cases h0 : cfg.easy + cfg.medium + cfg.hard = 0 <;>
      simp [batch_generate_reading_questions, h0]
  · intro cfg job code
    by_cases h0 : cfg.easy + cfg.medium + cfg.hard = 0 <;>
      simp [batch_generate_listening_questions, h0]
  · intro topics total tr code
    by_cases h1 : topics.isEmpty <;> by_cases h2 : total = 0 <;>
      simp [batch_generate_grammar_questions, h1, h2]

/-- Every sub-batch produced by pair-chunking has at most two topics. -/
theorem chunk2_mem_length {α : Type} :
    ∀ l : List α, ∀ c ∈ chunk2 l, c.length ≤ 2
  | [] => by simp [chunk2]
  | [a] => by simp [chunk2]
  | a :: b :: rest => by
    intro c hc
    simp only [chunk2, List.mem_cons] at hc
    rcases hc with rfl | hc
    · simp
    · exact chunk2_mem_length rest c hc

/-- The planner's event trace never records a sub-batch call with more
topics than the largest chunk. -/
theorem run_batches_max_le (rb : List MissingConfig → Bool × List AptQuestion) :
    ∀ chunks : List (List MissingConfig), (∀ c ∈ chunks, c.length ≤ 2) →
      max_batch_call_size (run_batches rb chunks).1 ≤ 2
  | [] => fun _ => by simp [run_batches, max_batch_call_size]
  | chunk :: rest => fun h => by
    have h1 := h chunk (List.mem_cons_self _ _)
    have h2 := run_batches_max_le rb rest (fun c hc => h c (List.mem_cons_of_mem _ hc))
    by_cases he : rest.isEmpty <;>
      simp [run_batches, he, max_batch_call_size] <;> omega

/-- The planner's events do not depend on whether the final result was
the success or the all-failed shape. -/
theorem generate_in_batches_events (tcs : List MissingConfig)
    (rb : List MissingConfig → Bool × List AptQuestion) :
    (generate_aptitude_in_batches tcs rb).1 = (run_batches rb (chunk2 tcs)).1 := by
  unfold generate_aptitude_in_batches
  by_cases h : (run_batches rb (chunk2 tcs)).2.isEmpty <;> simp [h]

/-- C6 (amended): the planner never creates a sub-batch of more than 2
topics; and for the 45-questions-across-3-topics scenario it creates
exactly 2 sub-batches (⌈3/2⌉, not 3) with one fixed 3-second delay
between them, and a failed first sub-batch does not prevent the second
sub-batch's questions from forming the final successful output. -/
theorem c6_batch_partitioning (tcs : List MissingConfig)
    (rb : List MissingConfig → Bool × List AptQuestion) :
    max_batch_call_size (generate_aptitude_in_batches tcs rb).1 ≤ 2 ∧
    (generate_aptitude_in_batches c6_missing_configs c6_demo_run_batch).1 =
      [.batch_call ["logical_reasoning", "quantitative_aptitude"],
       .sleep_for 3,
       .batch_call ["verbal_reasoning"]] ∧
    (generate_aptitude_in_batches c6_missing_configs c6_demo_run_batch).2.success = true ∧
    (generate_aptitude_in_batches c6_missing_configs c6_demo_run_batch).2.questions =
      [sample_apt_question 1] ∧
    count_batch_calls (generate_aptitude_in_batches c6_missing_configs c6_demo_run_batch).1 =
      2 := by
  refine ⟨?_, by decide, by decide, by decide, by decide⟩
  rw [generate_in_batches_events]
  exact run_batches_max_le rb (chunk2 tcs) (chunk2_mem_length tcs)

/-- C6 counterexample: a missing-work list of 45 questions across 3
topics yields 2 sub-batches, not the 3 sub-batches the claim states. -/
theorem c6_counterexample_two_sub_batches :
    count_batch_calls (generate_aptitude_in_batches c6_missing_configs c6_demo_run_batch).1 =
      2 ∧
    decide (count_batch_calls
      (generate_aptitude_in_batches c6_missing_configs c6_demo_run_batch).1 = 3) = false := by
  decide

/-- C9 (amended): every hard-error result has `success = false` and only
`error: true` entries carrying a human-readable message; the aptitude
error paths return exactly one synthetic error entry, while the
structured-communication error fallback returns one entry per requested
skill (zero to three), not always exactly one. -/
theorem c9_error_result_shape (skills : List String) (msg : String) :
    ((get_fallback_structured_communication skills).success = false ∧
     (get_fallback_structured_communication skills).generated_by = "error_fallback" ∧
     (get_fallback_structured_communication skills).questions.length =
       ((if "reading" ∈ skills then 1 else 0) + (if "listening" ∈ skills then 1 else 0) +
         (if "grammar" ∈ skills then 1 else 0)) ∧
     (get_fallback_structured_communication skills).questions.all
       (fun q => q.error) = true) ∧
    ((get_fallback_structured_communication ["reading", "listening", "grammar"]).questions.map
       (fun q => q.content) =
      ["AI service unavailable for reading assessment",
       "AI service unavailable for listening assessment",
       "AI service unavailable for grammar assessment"]) ∧
    (empty_response_error_result.success = false ∧
     empty_response_error_result.questions.length = 1 ∧
     empty_response_error_result.questions.all (fun q => q.error) = true) ∧
    (truncated_response_error_result.success = false ∧
     truncated_response_error_result.questions.length = 1 ∧
     truncated_response_error_result.questions.all (fun q => q.error) = true) ∧
    (all_batches_failed_result.success = false ∧
     all_batches_failed_result.questions.length = 1 ∧
     all_batches_failed_result.questions.all (fun q => q.error) = true) ∧
    ((json_parse_error_result msg).success = false ∧
     (json_parse_error_result msg).questions.length = 1 ∧
     (json_parse_error_result msg).questions.all (fun q => q.error) = true ∧
     (json_parse_error_result msg).questions.map (fun q => q.question) =
       ["ERROR: AI response parsing failed. " ++ msg]) ∧
    ((exception_error_result msg).success = false ∧
     (exception_error_result msg).questions.length = 1 ∧
     (exception_error_result msg).questions.all (fun q => q.error) = true ∧
     (exception_error_result msg).questions.map (fun q => q.question) =
       ["ERROR: Exception during generation - " ++ msg]) := by
  refine ⟨⟨rfl, rfl, ?_, ?_⟩, by decide, by decide, by decide, by decide,
    ⟨rfl, rfl, rfl, rfl⟩, ⟨rfl, rfl, rfl, rfl⟩⟩
  · by_cases h1 : "reading" ∈ skills <;> by_cases h2 : "listening" ∈ skills <;>
      by_cases h3 : "grammar" ∈ skills <;>
      simp [get_fallback_structured_communication, h1, h2, h3]
  · by_cases h1 : "reading" ∈ skills <;> by_cases h2 : "listening" ∈ skills <;>
      by_cases h3 : "grammar" ∈ skills <;>
      simp [get_fallback_structured_communication, h1, h2, h3]

/-- C9 counterexample: the structured-communication error fallback,
asked for all three skills, returns a `success: false` result with 3
synthetic error entries — not exactly one, as the claim states for every
hard error of a generation entry point. -/
theorem c9_counterexample_three_error_entries :
    (get_fallback_structured_communication ["reading", "listening", "grammar"]).success =
      false ∧
    (get_fallback_structured_communication
      ["reading", "listening", "grammar"]).questions.length = 3 ∧
    decide ((get_fallback_structured_communication
      ["reading", "listening", "grammar"]).questions.length = 1) = false := by
  decide

/-- C10: the fallback branches of `generate_aptitude_questions_by_difficulty`
(no-credentials branch) and `generate_aptitude_questions` (no-credentials
branch and outer exception handler) reference the name `topic_configs`,
which is bound nowhere in those function scopes, so each branch raises an
unhandled `NameError` instead of returning a result. -/
theorem c10_fallback_branches_raise_name_error :
    fallback_call_name_resolution by_difficulty_scope =
      .error "NameError: name topic_configs is not defined" ∧
    fallback_call_name_resolution generate_aptitude_scope =
      .error "NameError: name topic_configs is not defined" ∧
    fallback_call_name_resolution generate_aptitude_exception_scope =
      .error "NameError: name topic_configs is not defined" ∧
    decide ("topic_configs" ∈ by_difficulty_scope) = false ∧
    decide ("topic_configs" ∈ generate_aptitude_scope) = false ∧
    decide ("topic_configs" ∈ generate_aptitude_exception_scope) = false ∧
    decide ("time_per_question" ∈ generate_aptitude_scope) = false := by
  exact ⟨rfl, rfl, rfl, rfl, rfl, rfl, rfl⟩

/-- C8 (amended): only the READING small-batch fallback clears its
exhausted TemplateUsageSet and makes a second pass over the pool (still
skipping persisted duplicates); the LISTENING and GRAMMAR fallbacks,
when their pool is exhausted, leave the usage set untouched and go
directly to synthetic variation.  Concretely: reading with a fully-used
pool and one persisted passage re-emits pool entries 1 and 2 with a
usage set reset to exactly those indices; listening and grammar with
fully-used pools emit a Variation question and return the usage set
unchanged. -/
theorem c8_template_exhaustion_second_pass :
    (generate_small_reading_batch_fallback "Software Developer" 2
      [py_str_take ((small_reading_templates "Software Developer").getD 0 "") 50]
      [0, 1, 2, 3, 4, 5, 6, 7, 8, 9]).2 = [1, 2] ∧
    ((generate_small_reading_batch_fallback "Software Developer" 2
      [py_str_take ((small_reading_templates "Software Developer").getD 0 "") 50]
      [0, 1, 2, 3, 4, 5, 6, 7, 8, 9]).1.map (fun q => q.title)) =
      ["Reading Assessment - Template 1", "Reading Assessment - Template 2"] ∧
    ((generate_small_reading_batch_fallback "Software Developer" 2
      [py_str_take ((small_reading_templates "Software Developer").getD 0 "") 50]
      [0, 1, 2, 3, 4, 5, 6, 7, 8, 9]).1.map (fun q => q.passage)) =
      [some ((small_reading_templates "Software Developer").getD 1 ""),
       some ((small_reading_templates "Software Developer").getD 2 "")] ∧
    (generate_small_listening_batch_fallback "Software Developer" 1 []
      [0, 1, 2, 3, 4, 5, 6, 7, 8, 9, 10, 11]).2 =
      [0, 1, 2, 3, 4, 5, 6, 7, 8, 9, 10, 11] ∧
    ((generate_small_listening_batch_fallback "Software Developer" 1 []
      [0, 1, 2, 3, 4, 5, 6, 7, 8, 9, 10, 11]).1.map (fun q => q.title)) =
      ["Sentence Repetition - Variation 1"] ∧
    (generate_small_grammar_batch_fallback 1 [] [0, 1, 2, 3, 4, 5, 6, 7]).2 =
      [0, 1, 2, 3, 4, 5, 6, 7] ∧
    ((generate_small_grammar_batch_fallback 1 [] [0, 1, 2, 3, 4, 5, 6, 7]).1.map
      (fun q => q.title)) = ["Grammar Assessment - Variation 1"] := by
  exact ⟨rfl, rfl, rfl, rfl, rfl, rfl, rfl⟩

/-- C8 counterexample: the listening fallback with a fully-exhausted
pool (all 12 indices used) and one question still required does NOT
clear its TemplateUsageSet and does NOT make a second pass: the usage
set comes back unchanged (in particular not cleared), and the emitted
question is a synthetic Variation rather than a pool entry. -/
theorem c8_counterexample_listening_no_clear :
    (generate_small_listening_batch_fallback "Software Developer" 1 []
      [0, 1, 2, 3, 4, 5, 6, 7, 8, 9, 10, 11]).2 =
      [0, 1, 2, 3, 4, 5, 6, 7, 8, 9, 10, 11] ∧
    decide ((generate_small_listening_batch_fallback "Software Developer" 1 []
      [0, 1, 2, 3, 4, 5, 6, 7, 8, 9, 10, 11]).2.length = 1) = false ∧
    ((generate_small_listening_batch_fallback "Software Developer" 1 []
      [0, 1, 2, 3, 4, 5, 6, 7, 8, 9, 10, 11]).1.map (fun q => q.audio_text)) =
      [some (create_listening_variation
        ((small_listening_templates "Software Developer").getD 0 "")
        "Software Developer" 1)] := by
  exact ⟨rfl, rfl, rfl⟩

/-- C7 witness: three consecutive rotations on a three-credential set
restore the index; rotation on a single-credential set reports failure
and changes nothing; the key list is never modified. -/
theorem c7_rotate_witness :
    rotate_state^[3] (⟨["k0", "k1", "k2"], 1⟩ : GroqKeyState) =
      ⟨["k0", "k1", "k2"], 1⟩ ∧
    rotate_api_key ⟨["only"], 0⟩ = (false, ⟨["only"], 0⟩) ∧
    (rotate_api_key ⟨["k0", "k1", "k2"], 1⟩).2.api_keys = ["k0", "k1", "k2"] := by
  have h := c7_rotate_api_key_circular ⟨["k0", "k1", "k2"], 1⟩
  exact ⟨h.1 (by decide), (c7_rotate_api_key_circular ⟨["only"], 0⟩).2.1 (by decide),
    h.2.2.1⟩

end HRMS
